import Mathlib

/-!
# Geometry descriptor traversal and triangle counting (D3D12RaytracingFallback, Util.h)

A shallow embedding of the host-side helpers of `Util.h`:

* `ThrowFailure` raises a `_com_error` carrying the `HRESULT` when `FAILED(hr)`;
  C++ exceptions are modelled with `Except`.
* `IsVertexBufferFormatSupported`, `IsIndexBufferFormatSupported` are the two
  format predicates.
* `GetGeometryDesc` resolves one geometry descriptor out of a build description,
  for the inline-array layout and for the array-of-pointers layout.
* `GetTriangleCountFromGeometryDesc` validates one descriptor and returns its
  triangle count.
* `GetTotalTriangleCount` sums the counts of all descriptors in a `UINT`.
* `DivideAndRoundUp`, `Log2` and `AlignPowerOfTwo` are the numeric helpers; the
  two templates are taken at an integer type given by its width and signedness.

`UINT` values are naturals below `2^32`; their arithmetic wraps modulo `2^32`.
Reads outside the storage a description designates are undefined behaviour in
C++; the embedding is total and reports them as the failures `outOfRange` and
`invalidPointer`, which no C++ exception corresponds to.
-/

namespace D3D12RaytracingFallback

/-! ## Machine types and Windows constants -/

/-- Number of values of a 32-bit unsigned integer, `2^32`. -/
abbrev UINT_RANGE : Nat := 4294967296

/-- The C type `UINT`: a natural number below `2^32`. Addition on it is addition
modulo `2^32`; division and remainder are the ones of the naturals. -/
abbrev UINT := Fin UINT_RANGE

/-- The C type `HRESULT`, a signed 32-bit status code. -/
abbrev HRESULT := Int

/-- The value `0x80004001` read as a signed 32-bit integer. -/
def E_NOTIMPL : HRESULT := -2147467263

/-- The value `0x80070057` read as a signed 32-bit integer. -/
def E_INVALIDARG : HRESULT := -2147024809

/-- The Windows test `FAILED(hr)`, that is `hr < 0`. -/
def FAILED (hr : HRESULT) : Bool := decide (hr < 0)

/-- The enum `DXGI_FORMAT`, kept as its integer value. -/
abbrev DXGI_FORMAT := Nat

def DXGI_FORMAT_UNKNOWN : DXGI_FORMAT := 0
def DXGI_FORMAT_R32G32B32A32_FLOAT : DXGI_FORMAT := 2
def DXGI_FORMAT_R32G32B32_FLOAT : DXGI_FORMAT := 6
def DXGI_FORMAT_R32_UINT : DXGI_FORMAT := 42
def DXGI_FORMAT_R16_UINT : DXGI_FORMAT := 57

/-- The enum `D3D12_ELEMENTS_LAYOUT`, kept as its integer value: the switch of
`GetGeometryDesc` has a `default` branch for values that are neither of the two
enumerators. -/
abbrev D3D12_ELEMENTS_LAYOUT := Nat

def D3D12_ELEMENTS_LAYOUT_ARRAY : D3D12_ELEMENTS_LAYOUT := 0
def D3D12_ELEMENTS_LAYOUT_ARRAY_OF_POINTERS : D3D12_ELEMENTS_LAYOUT := 1

/-- The enum `D3D12_RAYTRACING_GEOMETRY_TYPE`, kept as its integer value:
`GetTriangleCountFromGeometryDesc` compares it with
`D3D12_RAYTRACING_GEOMETRY_TYPE_PROCEDURAL_PRIMITIVE_AABBS` only, so a value that
is neither of the two enumerators goes the way of the triangles. -/
abbrev D3D12_RAYTRACING_GEOMETRY_TYPE := Nat

def D3D12_RAYTRACING_GEOMETRY_TYPE_TRIANGLES : D3D12_RAYTRACING_GEOMETRY_TYPE := 0
def D3D12_RAYTRACING_GEOMETRY_TYPE_PROCEDURAL_PRIMITIVE_AABBS :
    D3D12_RAYTRACING_GEOMETRY_TYPE := 1

/-- The fields of `D3D12_RAYTRACING_GEOMETRY_TRIANGLES_DESC` that `Util.h` reads. -/
structure D3D12_RAYTRACING_GEOMETRY_TRIANGLES_DESC where
  IndexFormat : DXGI_FORMAT
  IndexCount : UINT
  VertexCount : UINT
  deriving DecidableEq, Repr

/-- The struct `D3D12_RAYTRACING_GEOMETRY_DESC`: the field `Type` of the source is
`GeometryType` here, and `Triangles` is the triangles view of its union. -/
structure D3D12_RAYTRACING_GEOMETRY_DESC where
  GeometryType : D3D12_RAYTRACING_GEOMETRY_TYPE
  Triangles : D3D12_RAYTRACING_GEOMETRY_TRIANGLES_DESC
  deriving DecidableEq, Repr

/-- A pointer to a geometry descriptor: an address. -/
abbrev Address := Nat

/-- The geometry descriptors stored in memory: the descriptor at an address, or
`none` where no descriptor lives (the null pointer, a dangling pointer). -/
abbrev Memory := Address → Option D3D12_RAYTRACING_GEOMETRY_DESC

/-- The template parameter `RAYTRACING_ACCELERATION_STRUCTURE_DESC` of the source,
with the members the code reads. `pGeometryDescs` is the array the inline pointer
designates, `ppGeometryDescs` the array of pointers; in C++ the two share a union
and only the one selected by `DescsLayout` is read. -/
structure RAYTRACING_ACCELERATION_STRUCTURE_DESC where
  NumDescs : UINT
  DescsLayout : D3D12_ELEMENTS_LAYOUT
  pGeometryDescs : List D3D12_RAYTRACING_GEOMETRY_DESC
  ppGeometryDescs : List Address

/-- How a call ends when it does not return a value: the exception
`_com_error(hr)`, or a read the C++ program has no defined behaviour for. -/
inductive Failure where
  | com_error (hr : HRESULT)
  | outOfRange
  | invalidPointer
  deriving DecidableEq, Repr

/-! ## The functions of `Util.h` -/

/-- What `ThrowFailure` writes with `OutputDebugString`. -/
def ThrowFailure.debugOutput (hr : HRESULT) (errorString : Option String) : List String :=
  if FAILED hr then
    match errorString with
    | some s => ["\n", "D3D12 Raytracing Fallback Error: ", s, "\n"]
    | none => []
  else []

/-- The function `ThrowFailure(hr, errorString)`: throws `_com_error(hr)` when `FAILED(hr)`,
after the debug output when an error string is given; returns otherwise. -/
def ThrowFailure (hr : HRESULT) (errorString : Option String) : Except Failure Unit :=
  if FAILED hr then
    match errorString with
    | some _ => throw (Failure.com_error hr)
    | none => throw (Failure.com_error hr)
  else
    pure ()

/-- The function `IsVertexBufferFormatSupported`: the `switch` over the format. -/
def IsVertexBufferFormatSupported (format : DXGI_FORMAT) : Bool :=
  if format = DXGI_FORMAT_R32G32B32_FLOAT then true
  else if format = DXGI_FORMAT_R32G32B32A32_FLOAT then true
  else false

/-- The function `IsIndexBufferFormatSupported`: the `switch` over the format. -/
def IsIndexBufferFormatSupported (format : DXGI_FORMAT) : Bool :=
  if format = DXGI_FORMAT_R32_UINT then true
  else if format = DXGI_FORMAT_R16_UINT then true
  else if format = DXGI_FORMAT_UNKNOWN then true
  else false

/-- The function `GetGeometryDesc(desc, geometryIndex)`: the `switch` over
`desc.DescsLayout`; a read outside the designated storage is reported as a failure. -/
def GetGeometryDesc (mem : Memory) (desc : RAYTRACING_ACCELERATION_STRUCTURE_DESC)
    (geometryIndex : UINT) : Except Failure D3D12_RAYTRACING_GEOMETRY_DESC :=
  if desc.DescsLayout = D3D12_ELEMENTS_LAYOUT_ARRAY then
    match desc.pGeometryDescs[geometryIndex.val]? with
    | some geometryDesc => pure geometryDesc
    | none => throw Failure.outOfRange
  else if desc.DescsLayout = D3D12_ELEMENTS_LAYOUT_ARRAY_OF_POINTERS then
    match desc.ppGeometryDescs[geometryIndex.val]? with
    | some p =>
      match mem p with
      | some geometryDesc => pure geometryDesc
      | none => throw Failure.invalidPointer
    | none => throw Failure.outOfRange
  else do
    ThrowFailure E_INVALIDARG (some "Unexpected value for D3D12_ELEMENTS_LAYOUT")
    -- `return *(D3D12_RAYTRACING_GEOMETRY_DESC *)nullptr;`
    throw Failure.invalidPointer

/-- The function `GetTriangleCountFromGeometryDesc(geometryDesc)`; execution goes on
after a call of `ThrowFailure` that returns. -/
def GetTriangleCountFromGeometryDesc (geometryDesc : D3D12_RAYTRACING_GEOMETRY_DESC) :
    Except Failure UINT := do
  if geometryDesc.GeometryType = D3D12_RAYTRACING_GEOMETRY_TYPE_PROCEDURAL_PRIMITIVE_AABBS then
    ThrowFailure E_NOTIMPL
      (some "Intersection shaders are not currently supported. This error was thrown due to the use of D3D12_RAYTRACING_GEOMETRY_TYPE_PROCEDURAL_PRIMITIVE_AABBS")
  let triangles := geometryDesc.Triangles
  if !IsIndexBufferFormatSupported triangles.IndexFormat then
    ThrowFailure E_NOTIMPL (some "Unsupported index buffer format provided")
  let bNullIndexBuffer : Bool := decide (triangles.IndexFormat = DXGI_FORMAT_UNKNOWN)
  let vertexCount : UINT := if bNullIndexBuffer then triangles.VertexCount else triangles.IndexCount
  if vertexCount % 3 ≠ 0 then
    ThrowFailure E_INVALIDARG
      (some (if bNullIndexBuffer then
        "Invalid vertex count provided, must be a multiple of 3 when there is no index buffer since geometry is always a triangle list"
      else
        "Invalid index count provided, must be a multiple of 3 since geometry is always a triangle list"))
  return vertexCount / 3

/-- The `for` loop of `GetTotalTriangleCount`, from the state in which the loop
variable is `elementIndex` and the accumulator is `totalTriangles`. The increment
`elementIndex++` and the update `totalTriangles += ...` are `UINT` additions. -/
def GetTotalTriangleCount.loop (mem : Memory) (desc : RAYTRACING_ACCELERATION_STRUCTURE_DESC)
    (elementIndex totalTriangles : UINT) : Except Failure UINT :=
  if elementIndex < desc.NumDescs then
    match GetGeometryDesc mem desc elementIndex with
    | Except.error e => Except.error e
    | Except.ok geometryDesc =>
      match GetTriangleCountFromGeometryDesc geometryDesc with
      | Except.error e => Except.error e
      | Except.ok count =>
        GetTotalTriangleCount.loop mem desc (elementIndex + 1) (totalTriangles + count)
  else
    Except.ok totalTriangles
termination_by desc.NumDescs.val - elementIndex.val
decreasing_by
  rename_i h
  have h1 : elementIndex.val < desc.NumDescs.val := h
  have h2 : (elementIndex + 1).val = elementIndex.val + 1 := by
    rw [Fin.val_add]
    exact Nat.mod_eq_of_lt (by simpa using (by omega : elementIndex.val + 1 < UINT_RANGE))
  omega

/-- The function `GetTotalTriangleCount(desc)`: the loop from index 0 and total 0. -/
def GetTotalTriangleCount (mem : Memory) (desc : RAYTRACING_ACCELERATION_STRUCTURE_DESC) :
    Except Failure UINT :=
  GetTotalTriangleCount.loop mem desc 0 0

/-- The loop of `GetTotalTriangleCount` with a record of its calls: next to the
outcome, the list of the indices `GetGeometryDesc` was called with, in order. -/
def GetTotalTriangleCount.tracedLoop (mem : Memory)
    (desc : RAYTRACING_ACCELERATION_STRUCTURE_DESC) (elementIndex totalTriangles : UINT) :
    Except Failure UINT × List UINT :=
  if elementIndex < desc.NumDescs then
    match GetGeometryDesc mem desc elementIndex with
    | Except.error e => (Except.error e, [elementIndex])
    | Except.ok geometryDesc =>
      match GetTriangleCountFromGeometryDesc geometryDesc with
      | Except.error e => (Except.error e, [elementIndex])
      | Except.ok count =>
        ((GetTotalTriangleCount.tracedLoop mem desc (elementIndex + 1)
            (totalTriangles + count)).1,
          elementIndex :: (GetTotalTriangleCount.tracedLoop mem desc (elementIndex + 1)
            (totalTriangles + count)).2)
  else
    (Except.ok totalTriangles, [])
termination_by desc.NumDescs.val - elementIndex.val
decreasing_by
  all_goals
    rename_i h
    have h1 : elementIndex.val < desc.NumDescs.val := h
    have h2 : (elementIndex + 1).val = elementIndex.val + 1 := by
      rw [Fin.val_add]
      exact Nat.mod_eq_of_lt (by simpa using (by omega : elementIndex.val + 1 < UINT_RANGE))
    omega

/-! ## The numeric helpers of `Util.h` -/

/-- Number of values of a 64-bit unsigned integer, `2^64`. -/
abbrev UINT64_RANGE : Nat := 18446744073709551616

/-- The C type `uint64_t`: a natural number below `2^64`. -/
abbrev UINT64 := Fin UINT64_RANGE

/-- An integer type `T` a template of `Util.h` is instantiated at: its width in
bits and whether it is signed. The statements take it at least as wide as `int`,
so that its operands are not promoted. -/
structure IntegerType where
  bits : Nat
  signed : Bool
  deriving DecidableEq, Repr

/-- The least value of the type. -/
def IntegerType.minValue (T : IntegerType) : Int :=
  if T.signed then -(2 ^ (T.bits - 1)) else 0

/-- The greatest value of the type. -/
def IntegerType.maxValue (T : IntegerType) : Int :=
  if T.signed then 2 ^ (T.bits - 1) - 1 else 2 ^ T.bits - 1

/-- Conversion of an integer to the type: the value of the type that is congruent
to it modulo `2^bits`. -/
def IntegerType.convert (T : IntegerType) (x : Int) : Int :=
  if T.signed then (x + 2 ^ (T.bits - 1)) % 2 ^ T.bits - 2 ^ (T.bits - 1) else x % 2 ^ T.bits

/-- The result, in the type, of an arithmetic operation whose mathematical result
is `x`: unsigned arithmetic wraps modulo `2^bits`, signed overflow is undefined
(`none`). -/
def IntegerType.arithmetic (T : IntegerType) (x : Int) : Option Int :=
  if T.signed then
    if T.minValue ≤ x ∧ x ≤ T.maxValue then some x else none
  else some (x % 2 ^ T.bits)

/-- The template `DivideAndRoundUp<T>(dividend, divisor)`, that is
`(dividend - 1) / divisor + 1` in the arithmetic of `T`; the division of C++
truncates towards zero and is undefined (`none`) for a zero divisor. -/
def DivideAndRoundUp (T : IntegerType) (dividend divisor : Int) : Option Int :=
  if divisor = 0 then none
  else do
    let difference ← T.arithmetic (dividend - 1)
    let quotient ← T.arithmetic (Int.tdiv difference divisor)
    T.arithmetic (quotient + 1)

/-- The highest position below `n` at which `mask` has a set bit. -/
def highestSetBitBelow (mask : Nat) : Nat → Option Nat
  | 0 => none
  | n + 1 => if mask.testBit n then some n else highestSetBitBelow mask n

/-- The lowest position among `position`, ..., `position + count - 1` at which
`mask` has a set bit. -/
def lowestSetBitFrom (mask : Nat) : Nat → Nat → Option Nat
  | 0, _ => none
  | count + 1, position =>
    if mask.testBit position then some position
    else lowestSetBitFrom mask count (position + 1)

/-- The compiler intrinsic `_BitScanReverse64(&Index, Mask)`: searches the 64 bits
of the mask from the most significant to the least significant for a set bit;
`some Index` when it returns nonzero, `none` when it returns 0 (no bit is set). -/
def _BitScanReverse64 (mask : UINT64) : Option Nat := highestSetBitBelow mask.val 64

/-- The compiler intrinsic `_BitScanForward64(&Index, Mask)`: searches the 64 bits
of the mask from the least significant to the most significant for a set bit;
`some Index` when it returns nonzero, `none` when it returns 0 (no bit is set). -/
def _BitScanForward64 (mask : UINT64) : Option Nat := lowestSetBitFrom mask.val 64 0

/-- The function `Log2(value)`; the result is a `uint8_t`, hence the reduction modulo 256. -/
def Log2 (value : UINT64) : Nat :=
  match _BitScanReverse64 value, _BitScanForward64 value with
  | some mssb, some lssb => (mssb + (if mssb = lssb then 0 else 1)) % 256
  | _, _ => 0

/-- Conversion of an integer to `uint64_t`, as at the call `Log2(value)`. -/
def toUINT64 (x : Int) : UINT64 :=
  ⟨(x % 18446744073709551616).toNat, by
    show (x % 18446744073709551616).toNat < 18446744073709551616
    omega⟩

/-- The expression `1 << count`, a shift of the `int` literal 1: `2^count` for a
count below 31, the least `int` (bit 31 set) for the count 31, undefined (`none`)
for a count of 32, the width of `int`, or more. -/
def shiftLeftOne (count : Nat) : Option Int :=
  if count < 31 then some (2 ^ count)
  else if count = 31 then some (-2147483648)
  else none

/-- The template `AlignPowerOfTwo<T>(value)`, that is
`value == 0 ? 0 : 1 << Log2(value)`: an `int`, converted to `T` on return. -/
def AlignPowerOfTwo (T : IntegerType) (value : Int) : Option Int :=
  if value = 0 then some (T.convert 0)
  else (shiftLeftOne (Log2 (toUINT64 value))).map T.convert

/-! ## Vocabulary of the statements -/

/-- Equality of outcomes is decidable. -/
instance instDecidableEqExcept {ε α : Type} [DecidableEq ε] [DecidableEq α] :
    DecidableEq (Except ε α)
  | Except.ok a, Except.ok b =>
    if h : a = b then isTrue (by rw [h]) else isFalse (by intro h2; cases h2; exact h rfl)
  | Except.error a, Except.error b =>
    if h : a = b then isTrue (by rw [h]) else isFalse (by intro h2; cases h2; exact h rfl)
  | Except.ok _, Except.error _ => isFalse (by intro h; cases h)
  | Except.error _, Except.ok _ => isFalse (by intro h; cases h)

/-- The count the triangle list is read from: `VertexCount` when `IndexFormat` is
`DXGI_FORMAT_UNKNOWN`, `IndexCount` otherwise. -/
def primitiveVertexCount (geometryDesc : D3D12_RAYTRACING_GEOMETRY_DESC) : UINT :=
  if geometryDesc.Triangles.IndexFormat = DXGI_FORMAT_UNKNOWN then
    geometryDesc.Triangles.VertexCount
  else
    geometryDesc.Triangles.IndexCount

/-- The description has the layout `D3D12_ELEMENTS_LAYOUT_ARRAY` and its inline
array holds at least `NumDescs` descriptors, the first `NumDescs` of which are
`entries`. -/
def HoldsInline (desc : RAYTRACING_ACCELERATION_STRUCTURE_DESC)
    (entries : List D3D12_RAYTRACING_GEOMETRY_DESC) : Prop :=
  desc.DescsLayout = D3D12_ELEMENTS_LAYOUT_ARRAY ∧
  desc.NumDescs.val ≤ desc.pGeometryDescs.length ∧
  desc.pGeometryDescs.take desc.NumDescs.val = entries

/-- The description has the layout `D3D12_ELEMENTS_LAYOUT_ARRAY_OF_POINTERS` and
its pointer array holds at least `NumDescs` pointers, the first `NumDescs` of
which point, in order, to the descriptors `entries`. -/
def HoldsByPointers (mem : Memory) (desc : RAYTRACING_ACCELERATION_STRUCTURE_DESC)
    (entries : List D3D12_RAYTRACING_GEOMETRY_DESC) : Prop :=
  desc.DescsLayout = D3D12_ELEMENTS_LAYOUT_ARRAY_OF_POINTERS ∧
  desc.NumDescs.val ≤ desc.ppGeometryDescs.length ∧
  (desc.ppGeometryDescs.take desc.NumDescs.val).map mem = entries.map some

/-- A build description with a recognised layout whose `NumDescs` entries are
`entries`, in either of the two layouts. -/
def Designates (mem : Memory) (desc : RAYTRACING_ACCELERATION_STRUCTURE_DESC)
    (entries : List D3D12_RAYTRACING_GEOMETRY_DESC) : Prop :=
  HoldsInline desc entries ∨ HoldsByPointers mem desc entries

/-- Left-to-right accumulation of the per-entry counts over a list of entries,
starting from `acc`, in `UINT` arithmetic; the first failing entry ends it. -/
def accumulate : List D3D12_RAYTRACING_GEOMETRY_DESC → UINT → Except Failure UINT
  | [], acc => Except.ok acc
  | g :: gs, acc =>
    match GetTriangleCountFromGeometryDesc g with
    | Except.error e => Except.error e
    | Except.ok count => accumulate gs (acc + count)

/-- The active descriptor sequence of the description, the one its layout selects,
holds at least `NumDescs` elements. -/
def ActiveSequenceHoldsNumDescs (desc : RAYTRACING_ACCELERATION_STRUCTURE_DESC) : Prop :=
  (desc.DescsLayout = D3D12_ELEMENTS_LAYOUT_ARRAY →
    desc.NumDescs.val ≤ desc.pGeometryDescs.length) ∧
  (desc.DescsLayout = D3D12_ELEMENTS_LAYOUT_ARRAY_OF_POINTERS →
    desc.NumDescs.val ≤ desc.ppGeometryDescs.length)

/-! ## Example inputs -/

/-- The value of `DXGI_FORMAT_R8_UINT`, a format that is not an index format here. -/
def DXGI_FORMAT_R8_UINT : DXGI_FORMAT := 62

/-- Triangles, no index buffer, `VertexCount` 9. -/
def exampleVertices9 : D3D12_RAYTRACING_GEOMETRY_DESC :=
  ⟨D3D12_RAYTRACING_GEOMETRY_TYPE_TRIANGLES, ⟨DXGI_FORMAT_UNKNOWN, 0, 9⟩⟩

/-- Triangles, 32-bit index buffer, `IndexCount` 12. -/
def exampleIndices12 : D3D12_RAYTRACING_GEOMETRY_DESC :=
  ⟨D3D12_RAYTRACING_GEOMETRY_TYPE_TRIANGLES, ⟨DXGI_FORMAT_R32_UINT, 12, 0⟩⟩

/-- Triangles, no index buffer, `VertexCount` 10. -/
def exampleVertices10 : D3D12_RAYTRACING_GEOMETRY_DESC :=
  ⟨D3D12_RAYTRACING_GEOMETRY_TYPE_TRIANGLES, ⟨DXGI_FORMAT_UNKNOWN, 0, 10⟩⟩

/-- Procedural geometry whose other fields would pass as triangles. -/
def exampleProcedural : D3D12_RAYTRACING_GEOMETRY_DESC :=
  ⟨D3D12_RAYTRACING_GEOMETRY_TYPE_PROCEDURAL_PRIMITIVE_AABBS, ⟨DXGI_FORMAT_UNKNOWN, 0, 9⟩⟩

/-- Triangles with an 8-bit index format and counts that are not multiples of 3. -/
def exampleIndexFormat8 : D3D12_RAYTRACING_GEOMETRY_DESC :=
  ⟨D3D12_RAYTRACING_GEOMETRY_TYPE_TRIANGLES, ⟨DXGI_FORMAT_R8_UINT, 10, 10⟩⟩

/-- Triangles, no index buffer, `VertexCount` `2^32 - 1`, a multiple of 3. -/
def exampleVerticesMax : D3D12_RAYTRACING_GEOMETRY_DESC :=
  ⟨D3D12_RAYTRACING_GEOMETRY_TYPE_TRIANGLES, ⟨DXGI_FORMAT_UNKNOWN, 0, 4294967295⟩⟩

/-- A memory that holds no descriptor. -/
def emptyMemory : Memory := fun _ => none

/-- A memory with `exampleVertices9` at address 16 and `exampleIndices12` at address 8. -/
def exampleMemory : Memory := fun a =>
  if a = 16 then some exampleVertices9
  else if a = 8 then some exampleIndices12
  else none

/-- The two examples held inline. -/
def exampleInlineDesc : RAYTRACING_ACCELERATION_STRUCTURE_DESC :=
  ⟨2, D3D12_ELEMENTS_LAYOUT_ARRAY, [exampleVertices9, exampleIndices12], []⟩

/-- The two examples behind pointers into `exampleMemory`. -/
def examplePointerDesc : RAYTRACING_ACCELERATION_STRUCTURE_DESC :=
  ⟨2, D3D12_ELEMENTS_LAYOUT_ARRAY_OF_POINTERS, [], [16, 8]⟩

/-- Four inline entries of `1431655765` triangles each. -/
def exampleOverflowDesc : RAYTRACING_ACCELERATION_STRUCTURE_DESC :=
  ⟨4, D3D12_ELEMENTS_LAYOUT_ARRAY,
    [exampleVerticesMax, exampleVerticesMax, exampleVerticesMax, exampleVerticesMax], []⟩

/-- A valid entry, then two failing entries with different errors, then a valid one. -/
def exampleFailingDesc : RAYTRACING_ACCELERATION_STRUCTURE_DESC :=
  ⟨4, D3D12_ELEMENTS_LAYOUT_ARRAY,
    [exampleVertices9, exampleVertices10, exampleProcedural, exampleIndices12], []⟩

/-- No entries, inline layout. -/
def exampleEmptyInlineDesc : RAYTRACING_ACCELERATION_STRUCTURE_DESC :=
  ⟨0, D3D12_ELEMENTS_LAYOUT_ARRAY, [], []⟩

/-- No entries, pointer layout. -/
def exampleEmptyPointerDesc : RAYTRACING_ACCELERATION_STRUCTURE_DESC :=
  ⟨0, D3D12_ELEMENTS_LAYOUT_ARRAY_OF_POINTERS, [], []⟩

/-- One inline entry under a layout value that is neither enumerator. -/
def exampleUnknownLayoutDesc : RAYTRACING_ACCELERATION_STRUCTURE_DESC :=
  ⟨1, 2, [exampleVertices9], [16]⟩

/-- An entry whose `Type` is 2, neither enumerator, with no index buffer and
`VertexCount` 9. -/
def exampleTypeValue2 : D3D12_RAYTRACING_GEOMETRY_DESC :=
  ⟨2, ⟨DXGI_FORMAT_UNKNOWN, 0, 9⟩⟩

/-- The type `UINT`, 32 bits, unsigned. -/
def typeUINT : IntegerType := ⟨32, false⟩

/-- The type `int`, 32 bits, signed. -/
def typeINT : IntegerType := ⟨32, true⟩

/-- The type `UINT64`, 64 bits, unsigned. -/
def typeUINT64 : IntegerType := ⟨64, false⟩

/-- The type `INT64`, 64 bits, signed. -/
def typeINT64 : IntegerType := ⟨64, true⟩

/-- One valid inline entry where the description announces two. -/
def exampleShortDesc : RAYTRACING_ACCELERATION_STRUCTURE_DESC :=
  ⟨2, D3D12_ELEMENTS_LAYOUT_ARRAY, [exampleVertices9], []⟩

/-- Triangles, no index buffer, `VertexCount` 9 and an `IndexCount` of 5. -/
def exampleVertices9Index5 : D3D12_RAYTRACING_GEOMETRY_DESC :=
  ⟨D3D12_RAYTRACING_GEOMETRY_TYPE_TRIANGLES, ⟨DXGI_FORMAT_UNKNOWN, 5, 9⟩⟩

/-- Triangles, 32-bit index buffer, `IndexCount` 12 and a `VertexCount` of 7. -/
def exampleIndices12Vertex7 : D3D12_RAYTRACING_GEOMETRY_DESC :=
  ⟨D3D12_RAYTRACING_GEOMETRY_TYPE_TRIANGLES, ⟨DXGI_FORMAT_R32_UINT, 12, 7⟩⟩

/-! ## One entry -/

theorem ThrowFailure_E_NOTIMPL (s : Option String) :
    ThrowFailure E_NOTIMPL s = Except.error (Failure.com_error E_NOTIMPL) := by
  cases s <;> rfl

theorem ThrowFailure_E_INVALIDARG (s : Option String) :
    ThrowFailure E_INVALIDARG s = Except.error (Failure.com_error E_INVALIDARG) := by
  cases s <;> rfl

/-- The four ways `GetTriangleCountFromGeometryDesc` ends, in the order of its checks. -/
theorem GetTriangleCountFromGeometryDesc_eq (g : D3D12_RAYTRACING_GEOMETRY_DESC) :
    GetTriangleCountFromGeometryDesc g =
      if g.GeometryType = D3D12_RAYTRACING_GEOMETRY_TYPE_PROCEDURAL_PRIMITIVE_AABBS then
        Except.error (Failure.com_error E_NOTIMPL)
      else if IsIndexBufferFormatSupported g.Triangles.IndexFormat = false then
        Except.error (Failure.com_error E_NOTIMPL)
      else if (primitiveVertexCount g).val % 3 ≠ 0 then
        Except.error (Failure.com_error E_INVALIDARG)
      else
        Except.ok (primitiveVertexCount g / 3) := by
  have hmod : ∀ v : UINT, v % 3 = 0 ↔ v.val % 3 = 0 := by
    intro v
    rw [← Fin.val_inj, Fin.mod_val]
    rfl
  unfold GetTriangleCountFromGeometryDesc primitiveVertexCount
  by_cases h1 : g.GeometryType = D3D12_RAYTRACING_GEOMETRY_TYPE_PROCEDURAL_PRIMITIVE_AABBS
  · simp [h1, ThrowFailure_E_NOTIMPL, bind, Except.bind]
  · by_cases h2 : IsIndexBufferFormatSupported g.Triangles.IndexFormat = false
    · simp [h1, h2, ThrowFailure_E_NOTIMPL, bind, Except.bind, pure, Except.pure]
    · simp only [Bool.not_eq_false] at h2
      by_cases h3 : g.Triangles.IndexFormat = DXGI_FORMAT_UNKNOWN
      · rw [h3] at h2
        by_cases h4 : g.Triangles.VertexCount.val % 3 = 0
        · simp [h1, h2, h3, h4, hmod, bind, Except.bind, pure, Except.pure]
        · simp [h1, h2, h3, h4, hmod, ThrowFailure_E_INVALIDARG, bind, Except.bind, pure,
            Except.pure]
      · by_cases h4 : g.Triangles.IndexCount.val % 3 = 0
        · simp [h1, h2, h3, h4, hmod, bind, Except.bind, pure, Except.pure]
        · simp [h1, h2, h3, h4, hmod, ThrowFailure_E_INVALIDARG, bind, Except.bind, pure,
            Except.pure]

theorem IsIndexBufferFormatSupported_iff (format : DXGI_FORMAT) :
    IsIndexBufferFormatSupported format = true ↔
      format = DXGI_FORMAT_R32_UINT ∨ format = DXGI_FORMAT_R16_UINT ∨
        format = DXGI_FORMAT_UNKNOWN := by
  unfold IsIndexBufferFormatSupported
  by_cases h1 : format = DXGI_FORMAT_R32_UINT
  · simp [h1]
  · by_cases h2 : format = DXGI_FORMAT_R16_UINT
    · simp [h2]
    · by_cases h3 : format = DXGI_FORMAT_UNKNOWN
      · simp [h3]
      · simp [h1, h2, h3]

/-! ## The whole description -/

theorem Designates_length {mem : Memory} {desc : RAYTRACING_ACCELERATION_STRUCTURE_DESC}
    {entries : List D3D12_RAYTRACING_GEOMETRY_DESC} (h : Designates mem desc entries) :
    entries.length = desc.NumDescs.val := by
  rcases h with ⟨_, hlen, htake⟩ | ⟨_, hlen, hmap⟩
  · rw [← htake, List.length_take, Nat.min_eq_left hlen]
  · have := congrArg List.length hmap
    simp only [List.length_map, List.length_take] at this
    rw [← this, Nat.min_eq_left hlen]

/-- Inside a designated description `GetGeometryDesc` returns the entry at the index. -/
theorem GetGeometryDesc_of_Designates {mem : Memory}
    {desc : RAYTRACING_ACCELERATION_STRUCTURE_DESC}
    {entries : List D3D12_RAYTRACING_GEOMETRY_DESC} (h : Designates mem desc entries)
    (i : UINT) (hi : i.val < desc.NumDescs.val) :
    ∃ g, entries[i.val]? = some g ∧ GetGeometryDesc mem desc i = Except.ok g := by
  rcases h with ⟨hlay, hlen, htake⟩ | ⟨hlay, hlen, hmap⟩
  · have hlt : i.val < desc.pGeometryDescs.length := by omega
    refine ⟨desc.pGeometryDescs[i.val], ?_, ?_⟩
    · rw [← htake, List.getElem?_take_of_lt hi, List.getElem?_eq_getElem hlt]
    · unfold GetGeometryDesc
      rw [if_pos hlay, List.getElem?_eq_getElem hlt]
      rfl
  · have hlt : i.val < desc.ppGeometryDescs.length := by omega
    have hne : ¬ desc.DescsLayout = D3D12_ELEMENTS_LAYOUT_ARRAY := by
      rw [hlay]; decide
    have hat := congrArg (fun l => l[i.val]?) hmap
    simp only [List.getElem?_map, List.getElem?_take_of_lt hi,
      List.getElem?_eq_getElem hlt, Option.map_some'] at hat
    cases hg : entries[i.val]? with
    | none => rw [hg] at hat; simp at hat
    | some g =>
      rw [hg] at hat
      simp only [Option.map_some', Option.some.injEq] at hat
      refine ⟨g, rfl, ?_⟩
      unfold GetGeometryDesc
      rw [if_neg hne, if_pos hlay, List.getElem?_eq_getElem hlt]
      simp only [hat]
      rfl

theorem UINT_val_succ (i n : UINT) (h : i.val < n.val) : (i + 1).val = i.val + 1 := by
  have hn : n.val < UINT_RANGE := n.isLt
  rw [Fin.val_add]
  exact Nat.mod_eq_of_lt (by simpa using (by omega : i.val + 1 < UINT_RANGE))

/-- The loop of `GetTotalTriangleCount` from index `i` is the accumulation over
the entries from `i` on. -/
theorem loop_eq_accumulate {mem : Memory} {desc : RAYTRACING_ACCELERATION_STRUCTURE_DESC}
    {entries : List D3D12_RAYTRACING_GEOMETRY_DESC} (h : Designates mem desc entries) :
    ∀ (k : Nat) (i acc : UINT), desc.NumDescs.val - i.val = k → i.val ≤ desc.NumDescs.val →
      GetTotalTriangleCount.loop mem desc i acc = accumulate (entries.drop i.val) acc := by
  have hlen := Designates_length h
  intro k
  induction k with
  | zero =>
    intro i acc hk hle
    have hge : ¬ i < desc.NumDescs := by
      rw [Fin.lt_def]; omega
    rw [GetTotalTriangleCount.loop, if_neg hge, List.drop_of_length_le (by omega)]
    rfl
  | succ k ih =>
    intro i acc hk hle
    have hlt : i.val < desc.NumDescs.val := by omega
    have hlt2 : i < desc.NumDescs := Fin.lt_def.mpr hlt
    obtain ⟨g, hg, hget⟩ := GetGeometryDesc_of_Designates h i hlt
    have hsucc := UINT_val_succ i desc.NumDescs hlt
    have hil : i.val < entries.length := by omega
    have hdrop : entries.drop i.val = g :: entries.drop (i.val + 1) := by
      rw [List.drop_eq_getElem_cons hil]
      rw [List.getElem?_eq_getElem hil] at hg
      rw [Option.some.inj hg]
    rw [GetTotalTriangleCount.loop, if_pos hlt2, hget, hdrop]
    simp only [accumulate]
    cases hc : GetTriangleCountFromGeometryDesc g with
    | error e => rfl
    | ok count =>
      simp only
      rw [ih (i + 1) (acc + count) (by omega) (by omega), hsucc]

/-- On a designated description `GetTotalTriangleCount` is the accumulation, from
zero, over its entries. -/
theorem GetTotalTriangleCount_eq_accumulate {mem : Memory}
    {desc : RAYTRACING_ACCELERATION_STRUCTURE_DESC}
    {entries : List D3D12_RAYTRACING_GEOMETRY_DESC} (h : Designates mem desc entries) :
    GetTotalTriangleCount mem desc = accumulate entries 0 := by
  unfold GetTotalTriangleCount
  rw [loop_eq_accumulate h _ 0 0 rfl (Nat.zero_le _)]
  rfl

theorem accumulate_ok (l : List D3D12_RAYTRACING_GEOMETRY_DESC) :
    ∀ (counts : List UINT) (acc : UINT),
      l.map GetTriangleCountFromGeometryDesc = counts.map Except.ok →
      ∃ r, accumulate l acc = Except.ok r ∧
        r.val = (acc.val + (counts.map Fin.val).sum) % UINT_RANGE := by
  induction l with
  | nil =>
    intro counts acc h
    cases counts with
    | nil => exact ⟨acc, rfl, by simp [Nat.mod_eq_of_lt acc.isLt]⟩
    | cons c cs => simp at h
  | cons g gs ih =>
    intro counts acc h
    cases counts with
    | nil => simp at h
    | cons c cs =>
      simp only [List.map_cons, List.cons.injEq] at h
      obtain ⟨r, hr, hval⟩ := ih cs (acc + c) h.2
      refine ⟨r, ?_, ?_⟩
      · simp only [accumulate, h.1]
        exact hr
      · rw [hval, Fin.val_add, List.map_cons, List.sum_cons, Nat.mod_add_mod, Nat.add_assoc]

theorem accumulate_error_iff (l : List D3D12_RAYTRACING_GEOMETRY_DESC) :
    ∀ (acc : UINT) (e : Failure),
      accumulate l acc = Except.error e ↔
        ∃ pre g post, l = pre ++ g :: post ∧
          (∀ p ∈ pre, ∃ c, GetTriangleCountFromGeometryDesc p = Except.ok c) ∧
          GetTriangleCountFromGeometryDesc g = Except.error e := by
  induction l with
  | nil =>
    intro acc e
    constructor
    · intro h; cases h
    · rintro ⟨pre, g, post, h, _⟩
      simp at h
  | cons x xs ih =>
    intro acc e
    cases hx : GetTriangleCountFromGeometryDesc x with
    | error e2 =>
      simp only [accumulate, hx]
      constructor
      · intro h
        exact ⟨[], x, xs, rfl, by simp, by rw [hx, h]⟩
      · rintro ⟨pre, g, post, h, hpre, hg⟩
        cases pre with
        | nil =>
          simp only [List.nil_append, List.cons.injEq] at h
          rw [← h.1, hx] at hg
          exact hg
        | cons p ps =>
          simp only [List.cons_append, List.cons.injEq] at h
          obtain ⟨c, hc⟩ := hpre p (by simp)
          rw [← h.1, hx] at hc
          cases hc
    | ok c =>
      simp only [accumulate, hx]
      rw [ih (acc + c) e]
      constructor
      · rintro ⟨pre, g, post, h, hpre, hg⟩
        refine ⟨x :: pre, g, post, by rw [h]; rfl, ?_, hg⟩
        intro p hp
        rcases List.mem_cons.mp hp with rfl | hp
        · exact ⟨c, hx⟩
        · exact hpre p hp
      · rintro ⟨pre, g, post, h, hpre, hg⟩
        cases pre with
        | nil =>
          simp only [List.nil_append, List.cons.injEq] at h
          rw [← h.1, hx] at hg
          cases hg
        | cons p ps =>
          simp only [List.cons_append, List.cons.injEq] at h
          exact ⟨ps, g, post, h.2, fun q hq => hpre q (List.mem_cons_of_mem _ hq), hg⟩

/-! ## The calls of the loop -/

theorem GetTriangleCountFromGeometryDesc_ne_outOfRange (g : D3D12_RAYTRACING_GEOMETRY_DESC) :
    GetTriangleCountFromGeometryDesc g ≠ Except.error Failure.outOfRange := by
  rw [GetTriangleCountFromGeometryDesc_eq]
  split_ifs <;> intro h <;> cases h

/-- With enough elements in the active sequence no lookup below `NumDescs` is out
of range. -/
theorem GetGeometryDesc_ne_outOfRange (mem : Memory)
    (desc : RAYTRACING_ACCELERATION_STRUCTURE_DESC) (h : ActiveSequenceHoldsNumDescs desc)
    (i : UINT) (hi : i < desc.NumDescs) :
    GetGeometryDesc mem desc i ≠ Except.error Failure.outOfRange := by
  have hi2 : i.val < desc.NumDescs.val := hi
  unfold GetGeometryDesc
  by_cases h1 : desc.DescsLayout = D3D12_ELEMENTS_LAYOUT_ARRAY
  · have hlt : i.val < desc.pGeometryDescs.length := lt_of_lt_of_le hi2 (h.1 h1)
    rw [if_pos h1, List.getElem?_eq_getElem hlt]
    intro hc; cases hc
  · by_cases h2 : desc.DescsLayout = D3D12_ELEMENTS_LAYOUT_ARRAY_OF_POINTERS
    · have hlt : i.val < desc.ppGeometryDescs.length := lt_of_lt_of_le hi2 (h.2 h2)
      rw [if_neg h1, if_pos h2, List.getElem?_eq_getElem hlt]
      dsimp only
      split <;> intro hc <;> cases hc
    · rw [if_neg h1, if_neg h2, ThrowFailure_E_INVALIDARG]
      intro hc; cases hc

/-- The traced loop has the outcome of the loop, and it records indices below
`NumDescs` only. -/
theorem tracedLoop_spec (mem : Memory) (desc : RAYTRACING_ACCELERATION_STRUCTURE_DESC) :
    ∀ (k : Nat) (i acc : UINT), desc.NumDescs.val - i.val = k →
      (GetTotalTriangleCount.tracedLoop mem desc i acc).1 =
          GetTotalTriangleCount.loop mem desc i acc ∧
        ∀ j ∈ (GetTotalTriangleCount.tracedLoop mem desc i acc).2, j < desc.NumDescs := by
  intro k
  induction k with
  | zero =>
    intro i acc hk
    have hge : ¬ i < desc.NumDescs := by
      rw [Fin.lt_def]; omega
    rw [GetTotalTriangleCount.tracedLoop, GetTotalTriangleCount.loop, if_neg hge, if_neg hge]
    exact ⟨rfl, by simp⟩
  | succ k ih =>
    intro i acc hk
    have hlt : i.val < desc.NumDescs.val := by omega
    have hlt2 : i < desc.NumDescs := Fin.lt_def.mpr hlt
    have hsucc := UINT_val_succ i desc.NumDescs hlt
    rw [GetTotalTriangleCount.tracedLoop, GetTotalTriangleCount.loop, if_pos hlt2, if_pos hlt2]
    cases hget : GetGeometryDesc mem desc i with
    | error e => exact ⟨rfl, by simpa using hlt2⟩
    | ok g =>
      dsimp only
      cases hc : GetTriangleCountFromGeometryDesc g with
      | error e => exact ⟨rfl, by simpa using hlt2⟩
      | ok count =>
        dsimp only
        obtain ⟨h1, h2⟩ := ih (i + 1) (acc + count) (by omega)
        refine ⟨h1, ?_⟩
        intro j hj
        rcases List.mem_cons.mp hj with rfl | hj
        · exact hlt2
        · exact h2 j hj

/-- An error of the loop is the error of a lookup below `NumDescs` or of the
validation of an entry. -/
theorem loop_error_source (mem : Memory) (desc : RAYTRACING_ACCELERATION_STRUCTURE_DESC) :
    ∀ (k : Nat) (i acc : UINT) (e : Failure), desc.NumDescs.val - i.val = k →
      GetTotalTriangleCount.loop mem desc i acc = Except.error e →
      (∃ j, j < desc.NumDescs ∧ GetGeometryDesc mem desc j = Except.error e) ∨
        ∃ g, GetTriangleCountFromGeometryDesc g = Except.error e := by
  intro k
  induction k with
  | zero =>
    intro i acc e hk h
    have hge : ¬ i < desc.NumDescs := by
      rw [Fin.lt_def]; omega
    rw [GetTotalTriangleCount.loop, if_neg hge] at h
    cases h
  | succ k ih =>
    intro i acc e hk h
    have hlt : i.val < desc.NumDescs.val := by omega
    have hlt2 : i < desc.NumDescs := Fin.lt_def.mpr hlt
    have hsucc := UINT_val_succ i desc.NumDescs hlt
    rw [GetTotalTriangleCount.loop, if_pos hlt2] at h
    cases hget : GetGeometryDesc mem desc i with
    | error e2 =>
      rw [hget] at h
      dsimp only at h
      exact Or.inl ⟨i, hlt2, by rw [hget, Except.error.inj h]⟩
    | ok g =>
      rw [hget] at h
      dsimp only at h
      cases hc : GetTriangleCountFromGeometryDesc g with
      | error e2 =>
        rw [hc] at h
        exact Or.inr ⟨g, by rw [hc]; exact h⟩
      | ok count =>
        rw [hc] at h
        exact ih (i + 1) (acc + count) e (by omega) h

/-- Without enough elements the lookup does run out of range: two entries
announced, one stored. -/
theorem GetTotalTriangleCount_exampleShortDesc :
    GetTotalTriangleCount emptyMemory exampleShortDesc = Except.error Failure.outOfRange := by
  unfold GetTotalTriangleCount
  rw [GetTotalTriangleCount.loop, if_pos (by decide)]
  have h0 : GetGeometryDesc emptyMemory exampleShortDesc 0 = Except.ok exampleVertices9 := rfl
  have h1 : GetTriangleCountFromGeometryDesc exampleVertices9 = Except.ok 3 := rfl
  rw [h0]
  dsimp only
  rw [h1]
  dsimp only
  rw [GetTotalTriangleCount.loop, if_pos (by decide)]
  have h2 : GetGeometryDesc emptyMemory exampleShortDesc (0 + 1) =
      Except.error Failure.outOfRange := rfl
  rw [h2]

/-! ## The numeric helpers -/

/-- An arithmetic result between 0 and the greatest value of the type is that value. -/
theorem IntegerType.arithmetic_of_nonneg (T : IntegerType) (x : Int) (h0 : 0 ≤ x)
    (hmax : x ≤ T.maxValue) : T.arithmetic x = some x := by
  unfold IntegerType.arithmetic
  unfold IntegerType.maxValue at hmax
  cases hs : T.signed with
  | true =>
    rw [hs] at hmax
    simp only [if_true] at hmax
    have hmin : T.minValue ≤ x := by
      unfold IntegerType.minValue
      rw [hs]
      have : (0 : Int) ≤ 2 ^ (T.bits - 1) := by positivity
      simp only [if_true]
      omega
    have hmax2 : x ≤ T.maxValue := by
      unfold IntegerType.maxValue
      rw [hs]
      simpa using hmax
    simp only [if_true]
    rw [if_pos ⟨hmin, hmax2⟩]
  | false =>
    rw [hs] at hmax
    simp only [Bool.false_eq_true, if_false] at hmax
    simp only [Bool.false_eq_true, if_false]
    rw [Int.emod_eq_of_lt h0 (by omega)]

/-- For a positive dividend and a positive divisor `DivideAndRoundUp` is the
ceiling of the quotient: the least `q` with `dividend ≤ q * divisor`. -/
theorem DivideAndRoundUp_of_pos (T : IntegerType) (dividend divisor : Int)
    (hd : 0 < dividend) (hmax : dividend ≤ T.maxValue) (hv : 0 < divisor) :
    ∃ q, DivideAndRoundUp T dividend divisor = some q ∧ dividend ≤ q * divisor ∧
      ∀ q2 : Int, dividend ≤ q2 * divisor → q ≤ q2 := by
  have hq0 : 0 ≤ (dividend - 1) / divisor := Int.ediv_nonneg (by omega) (by omega)
  have hqle : (dividend - 1) / divisor ≤ dividend - 1 := Int.ediv_le_self _ (by omega)
  have htdiv : (dividend - 1).tdiv divisor = (dividend - 1) / divisor :=
    Int.tdiv_eq_ediv (by omega) (by omega)
  have hmul : divisor * ((dividend - 1) / divisor) + (dividend - 1) % divisor = dividend - 1 :=
    Int.ediv_add_emod _ _
  have hmod0 : 0 ≤ (dividend - 1) % divisor := Int.emod_nonneg _ (by omega)
  have hmodlt : (dividend - 1) % divisor < divisor := Int.emod_lt_of_pos _ hv
  refine ⟨(dividend - 1) / divisor + 1, ?_, ?_, ?_⟩
  · unfold DivideAndRoundUp
    rw [if_neg (by omega), T.arithmetic_of_nonneg (dividend - 1) (by omega) (by omega)]
    simp only [Option.bind_eq_bind, Option.some_bind, htdiv]
    rw [T.arithmetic_of_nonneg _ hq0 (by omega)]
    simp only [Option.some_bind]
    exact T.arithmetic_of_nonneg _ (by omega) (by omega)
  · have : ((dividend - 1) / divisor + 1) * divisor =
        divisor * ((dividend - 1) / divisor) + divisor := by ring
    omega
  · intro q2 h2
    by_contra hlt
    have hle : q2 ≤ (dividend - 1) / divisor := by omega
    have := Int.mul_le_mul_of_nonneg_right hle (le_of_lt hv)
    have hcomm : (dividend - 1) / divisor * divisor = divisor * ((dividend - 1) / divisor) :=
      Int.mul_comm _ _
    omega

/-- A mask below `2^n` that is not zero has a highest set bit below `n`: the
scan finds it, and the mask lies between `2^m` and `2^(m+1)`. -/
theorem highestSetBitBelow_spec (mask : Nat) :
    ∀ n : Nat, mask < 2 ^ n → mask ≠ 0 →
      ∃ m, highestSetBitBelow mask n = some m ∧ m < n ∧ mask.testBit m = true ∧
        2 ^ m ≤ mask ∧ mask < 2 ^ (m + 1) := by
  intro n
  induction n with
  | zero =>
    intro h h0
    simp only [pow_zero, Nat.lt_one_iff] at h
    exact absurd h h0
  | succ n ih =>
    intro h h0
    unfold highestSetBitBelow
    by_cases hb : mask.testBit n = true
    · rw [if_pos hb]
      exact ⟨n, rfl, Nat.lt_succ_self n, hb, Nat.testBit_implies_ge hb, h⟩
    · rw [if_neg hb]
      have hlt : mask < 2 ^ n := by
        apply Nat.lt_pow_two_of_testBit
        intro i hi
        rcases Nat.eq_or_lt_of_le hi with heq | hgt
        · rw [← heq]
          simpa using hb
        · exact Nat.testBit_lt_two_pow
            (lt_of_lt_of_le h (Nat.pow_le_pow_right (by decide) hgt))
      obtain ⟨m, hm, hmn, hbit, hle, hlt2⟩ := ih hlt h0
      exact ⟨m, hm, Nat.lt_succ_of_lt hmn, hbit, hle, hlt2⟩

/-- The forward scan finds the lowest set bit when one lies in its window and no
bit is set before the window. -/
theorem lowestSetBitFrom_spec (mask : Nat) :
    ∀ (count position : Nat), (∀ j, j < position → mask.testBit j = false) →
      (∃ j, position ≤ j ∧ j < position + count ∧ mask.testBit j = true) →
      ∃ l, lowestSetBitFrom mask count position = some l ∧ mask.testBit l = true ∧
        ∀ j, j < l → mask.testBit j = false := by
  intro count
  induction count with
  | zero =>
    intro position _ hex
    obtain ⟨j, h1, h2, _⟩ := hex
    omega
  | succ count ih =>
    intro position hbefore hex
    unfold lowestSetBitFrom
    by_cases hb : mask.testBit position = true
    · rw [if_pos hb]
      exact ⟨position, rfl, hb, hbefore⟩
    · rw [if_neg hb]
      apply ih (position + 1)
      · intro j hj
        rcases Nat.eq_or_lt_of_le (Nat.le_of_lt_succ hj) with heq | hlt
        · rw [heq]
          simpa using hb
        · exact hbefore j hlt
      · obtain ⟨j, h1, h2, h3⟩ := hex
        refine ⟨j, ?_, by omega, h3⟩
        rcases Nat.eq_or_lt_of_le h1 with heq | hlt
        · rw [← heq] at h3
          exact absurd h3 hb
        · exact hlt

/-- A number whose bits below `l` are all clear is a multiple of `2^l`. -/
theorem mod_two_pow_eq_zero_of_testBit (mask l : Nat)
    (h : ∀ j, j < l → mask.testBit j = false) : mask % 2 ^ l = 0 := by
  apply Nat.eq_of_testBit_eq
  intro i
  rw [Nat.testBit_mod_two_pow, Nat.zero_testBit]
  by_cases hi : i < l
  · rw [h i hi]
    simp
  · simp [hi]

/-- The two scans on a 64-bit value that is not zero: the highest set bit `m`,
the lowest set bit `l`, and the value is `2^m` exactly when they are equal. -/
theorem bitScans_spec (v : UINT64) (hv : v ≠ 0) :
    ∃ m l, _BitScanReverse64 v = some m ∧ _BitScanForward64 v = some l ∧ m < 64 ∧
      2 ^ m ≤ v.val ∧ v.val < 2 ^ (m + 1) ∧ (m = l ↔ v.val = 2 ^ m) := by
  have hv0 : v.val ≠ 0 := fun h => hv (Fin.ext h)
  have hlt : v.val < 2 ^ 64 := v.isLt
  obtain ⟨m, hm, hm64, hbit, hle, hlt2⟩ := highestSetBitBelow_spec v.val 64 hlt hv0
  obtain ⟨l, hl, hlbit, hlow⟩ := lowestSetBitFrom_spec v.val 64 0
    (fun j hj => absurd hj (Nat.not_lt_zero j)) ⟨m, Nat.zero_le m, by omega, hbit⟩
  refine ⟨m, l, hm, hl, hm64, hle, hlt2, ?_⟩
  constructor
  · intro hml
    have hdvd : v.val % 2 ^ m = 0 :=
      mod_two_pow_eq_zero_of_testBit v.val m (by rw [hml]; exact hlow)
    have hdiv : v.val / 2 ^ m < 2 := by
      rw [Nat.div_lt_iff_lt_mul (by positivity)]
      rw [pow_succ] at hlt2
      omega
    have hdiv1 : 0 < v.val / 2 ^ m := Nat.div_pos hle (by positivity)
    have hdm := Nat.div_add_mod v.val (2 ^ m)
    have h1 : v.val / 2 ^ m = 1 := by omega
    rw [h1, hdvd] at hdm
    omega
  · intro hpow
    by_contra hne
    have hfalse : v.val.testBit l = false := by
      rw [hpow]
      exact Nat.testBit_two_pow_of_ne hne
    rw [hlbit] at hfalse
    cases hfalse

/-- For a 64-bit value that is not zero `Log2` is the least `n` with `value ≤ 2^n`;
it is the index of the highest set bit plus 1 unless the value is a power of two. -/
theorem Log2_spec (v : UINT64) (hv : v ≠ 0) :
    v.val ≤ 2 ^ Log2 v ∧ (∀ n, v.val ≤ 2 ^ n → Log2 v ≤ n) ∧ Log2 v ≤ 64 ∧
      ((∀ k, v.val ≠ 2 ^ k) → Log2 v = Nat.log 2 v.val + 1) := by
  obtain ⟨m, l, hm, hl, hm64, hle, hlt, hiff⟩ := bitScans_spec v hv
  have hlog : Nat.log 2 v.val = m :=
    (Nat.log_eq_iff (Or.inr ⟨by decide, by omega⟩)).mpr ⟨hle, hlt⟩
  unfold Log2
  rw [hm, hl]
  dsimp only
  by_cases hml : m = l
  · rw [if_pos hml, Nat.add_zero, Nat.mod_eq_of_lt (by omega)]
    have hpow := hiff.mp hml
    refine ⟨by rw [hpow], ?_, by omega, ?_⟩
    · intro n hn
      rw [hpow] at hn
      exact (Nat.pow_le_pow_iff_right (by decide)).mp hn
    · intro hno
      exact absurd hpow (hno m)
  · rw [if_neg hml, Nat.mod_eq_of_lt (by omega)]
    have hne : v.val ≠ 2 ^ m := fun h => hml (hiff.mpr h)
    refine ⟨le_of_lt hlt, ?_, by omega, fun _ => by rw [hlog]⟩
    intro n hn
    by_contra hlt3
    have hnm : n ≤ m := by omega
    have := Nat.pow_le_pow_right (by decide : 0 < 2) hnm
    omega

/-- A value from 0 to `2^30` is unchanged by the conversion to a type of at least
32 bits. -/
theorem IntegerType.convert_of_small (T : IntegerType) (hbits : 32 ≤ T.bits) (x : Int)
    (h0 : 0 ≤ x) (hle : x ≤ 1073741824) : T.convert x = x := by
  have hpow : (2 : Int) ^ T.bits = 2 * 2 ^ (T.bits - 1) := by
    have : T.bits = (T.bits - 1) + 1 := by omega
    rw [this, pow_succ, Nat.add_sub_cancel]
    ring
  have hbig : (2147483648 : Int) ≤ 2 ^ (T.bits - 1) := by
    have h31 : 31 ≤ T.bits - 1 := by omega
    have := pow_le_pow_right₀ (by decide : (1 : Int) ≤ 2) h31
    have h2 : (2 : Int) ^ 31 = 2147483648 := by norm_num
    omega
  unfold IntegerType.convert
  cases hs : T.signed with
  | true =>
    simp only [if_true]
    rw [Int.emod_eq_of_lt (by omega) (by omega)]
    omega
  | false =>
    simp only [Bool.false_eq_true, if_false]
    exact Int.emod_eq_of_lt h0 (by omega)

/-- On a positive value below `2^64` the call `Log2(value)` inside
`AlignPowerOfTwo` returns the least `n` with `value ≤ 2^n`, and the result of
`AlignPowerOfTwo` is the shift by that `n`, converted. -/
theorem AlignPowerOfTwo_of_pos (T : IntegerType) (v : Int) (hpos : 0 < v)
    (hlt : v < 18446744073709551616) :
    ∃ n : Nat, AlignPowerOfTwo T v = (shiftLeftOne n).map T.convert ∧
      v ≤ 2 ^ n ∧ ∀ k : Nat, v ≤ 2 ^ k → n ≤ k := by
  have hval : (toUINT64 v).val = v.toNat := by
    show (v % 18446744073709551616).toNat = v.toNat
    rw [Int.emod_eq_of_lt (le_of_lt hpos) hlt]
  have hne : toUINT64 v ≠ 0 := by
    intro h
    have h2 := congrArg Fin.val h
    rw [hval] at h2
    have h3 : ((0 : UINT64) : Nat) = 0 := rfl
    omega
  obtain ⟨h1, h2, _, _⟩ := Log2_spec (toUINT64 v) hne
  rw [hval] at h1 h2
  refine ⟨Log2 (toUINT64 v), ?_, ?_, ?_⟩
  · unfold AlignPowerOfTwo
    rw [if_neg (by omega)]
  · have : ((v.toNat : Nat) : Int) ≤ ((2 ^ Log2 (toUINT64 v) : Nat) : Int) := by
      exact_mod_cast h1
    rw [Int.toNat_of_nonneg (le_of_lt hpos)] at this
    exact_mod_cast this
  · intro k hk
    apply h2 k
    have hk2 : v ≤ ((2 ^ k : Nat) : Int) := by exact_mod_cast hk
    rw [← Int.toNat_of_nonneg (le_of_lt hpos)] at hk2
    exact_mod_cast hk2

/-- Up to `2^30`, in a type of at least 32 bits, `AlignPowerOfTwo` returns `2^n`
for the least `n` with `value ≤ 2^n`. -/
theorem AlignPowerOfTwo_small (T : IntegerType) (hbits : 32 ≤ T.bits) (v : Int)
    (hpos : 0 < v) (hle : v ≤ 1073741824) :
    ∃ n : Nat, n ≤ 30 ∧ AlignPowerOfTwo T v = some (2 ^ n) ∧
      v ≤ 2 ^ n ∧ ∀ k : Nat, v ≤ 2 ^ k → n ≤ k := by
  obtain ⟨n, hn, h1, h2⟩ := AlignPowerOfTwo_of_pos T v hpos (by omega)
  have h30 : n ≤ 30 := h2 30 (by norm_num; omega)
  have hp : (2 : Int) ^ n ≤ 1073741824 := by
    have := pow_le_pow_right₀ (by decide : (1 : Int) ≤ 2) h30
    have h3 : (2 : Int) ^ 30 = 1073741824 := by norm_num
    omega
  refine ⟨n, h30, ?_, h1, h2⟩
  rw [hn]
  unfold shiftLeftOne
  rw [if_pos (by omega)]
  simp only [Option.map_some']
  rw [T.convert_of_small hbits _ (by positivity) hp]

/-- In a 64-bit type the shift of the `int` literal gives a wrong result from
`2^30` on: for `2^31` the result is `2^64 - 2^31`. -/
theorem AlignPowerOfTwo_typeUINT64_example :
    AlignPowerOfTwo typeUINT64 2147483648 = some 18446744071562067968 ∧
    AlignPowerOfTwo typeUINT64 4294967296 = none := by
  constructor <;> decide

/-- Where the `int` shift is exact: `AlignPowerOfTwo(0)` is 0, and for a value `v`
with `0 < v ≤ 2^30` in a type of at least 32 bits, and also for `v ≤ 2^31` in the
32-bit unsigned type, the result is `2^n` for the least `n` with `v ≤ 2^n`: the
smallest power of two that is at least `v`, below `2 * v`, and a fixed point of
`AlignPowerOfTwo`. -/
theorem AlignPowerOfTwo_smallest_power_of_exact_shift (T : IntegerType) (v : Int)
    (hbits : 32 ≤ T.bits) (hpos : 0 < v)
    (hle : v ≤ 1073741824 ∨ (T = typeUINT ∧ v ≤ 2147483648)) :
    AlignPowerOfTwo T 0 = some 0 ∧
    ∃ n : Nat, AlignPowerOfTwo T v = some (2 ^ n) ∧ v ≤ 2 ^ n ∧
      (∀ k : Nat, v ≤ 2 ^ k → n ≤ k) ∧ (2 : Int) ^ n < 2 * v ∧
      AlignPowerOfTwo T (2 ^ n) = some (2 ^ n) := by
  have hzero : AlignPowerOfTwo T 0 = some 0 := by
    unfold AlignPowerOfTwo
    rw [if_pos rfl, T.convert_of_small hbits 0 (le_refl 0) (by decide)]
  have hdouble : ∀ n : Nat, v ≤ 2 ^ n → (∀ k : Nat, v ≤ 2 ^ k → n ≤ k) →
      (2 : Int) ^ n < 2 * v := by
    intro n _ hmin
    cases n with
    | zero => simp only [pow_zero]; omega
    | succ m =>
      have hnot : ¬ v ≤ 2 ^ m := fun h => by
        have := hmin m h
        omega
      rw [pow_succ]
      omega
  refine ⟨hzero, ?_⟩
  by_cases hsmall : v ≤ 1073741824
  · obtain ⟨n, h30, hn, h1, h2⟩ := AlignPowerOfTwo_small T hbits v hpos hsmall
    have hp : (2 : Int) ^ n ≤ 1073741824 := by
      have := pow_le_pow_right₀ (by decide : (1 : Int) ≤ 2) h30
      have h3 : (2 : Int) ^ 30 = 1073741824 := by norm_num
      omega
    obtain ⟨n2, _, hn2, h12, h22⟩ :=
      AlignPowerOfTwo_small T hbits (2 ^ n) (by positivity) hp
    have heq : n2 = n := by
      apply Nat.le_antisymm
      · exact h22 n (le_refl _)
      · exact (pow_le_pow_iff_right₀ (by decide : (1 : Int) < 2)).mp h12
    rw [heq] at hn2
    exact ⟨n, hn, h1, h2, hdouble n h1 h2, hn2⟩
  · rcases hle with hle | ⟨hT, hle⟩
    · exact absurd hle hsmall
    · obtain ⟨n, hn, h1, h2⟩ := AlignPowerOfTwo_of_pos T v hpos (by omega)
      have h31 : n ≤ 31 := h2 31 (by norm_num; omega)
      have hgt : 30 < n := by
        by_contra hc
        have hn30 : n ≤ 30 := by omega
        have := pow_le_pow_right₀ (by decide : (1 : Int) ≤ 2) hn30
        have h3 : (2 : Int) ^ 30 = 1073741824 := by norm_num
        omega
      have hn31 : n = 31 := by omega
      subst hn31
      refine ⟨31, ?_, h1, h2, hdouble 31 h1 h2, ?_⟩
      · rw [hn, hT]
        decide
      · rw [hT]
        decide

/-- Above half the range of the type no result can be right: for the `UINT` value
`2147483649` no power of two that is at least the value is a `UINT`; there
`AlignPowerOfTwo` shifts the `int` 1 by 32, which has no defined result. -/
theorem AlignPowerOfTwo_typeUINT_above_half_range :
    typeUINT.minValue ≤ 2147483649 ∧ (2147483649 : Int) ≤ typeUINT.maxValue ∧
    Log2 (toUINT64 2147483649) = 32 ∧
    AlignPowerOfTwo typeUINT 2147483649 = none ∧
    (∀ k : Nat, ¬ ((2147483649 : Int) ≤ 2 ^ k ∧ (2 : Int) ^ k ≤ typeUINT.maxValue)) ∧
    ¬ ∃ p : Int, AlignPowerOfTwo typeUINT 2147483649 = some p ∧
      (2147483649 : Int) ≤ p ∧ p < 2 * 2147483649 := by
  have hnone : AlignPowerOfTwo typeUINT 2147483649 = none := by decide
  refine ⟨by decide, by decide, by decide, hnone, ?_, ?_⟩
  · intro k ⟨h1, h2⟩
    have hmax : typeUINT.maxValue = 4294967295 := by decide
    rw [hmax] at h2
    by_cases hk : k ≤ 31
    · have := pow_le_pow_right₀ (by decide : (1 : Int) ≤ 2) hk
      have h3 : (2 : Int) ^ 31 = 2147483648 := by norm_num
      omega
    · have hk2 : 32 ≤ k := by omega
      have := pow_le_pow_right₀ (by decide : (1 : Int) ≤ 2) hk2
      have h3 : (2 : Int) ^ 32 = 4294967296 := by norm_num
      omega
  · rintro ⟨p, hp, _⟩
    rw [hnone] at hp
    cases hp

/-! ## The claims -/

/-- C1, as amended: for a build description with a recognised layout whose
entries all pass validation, `GetTotalTriangleCount` returns the exact sum of
the per-entry triangle counts whenever that sum is below `2^32`. -/
theorem C1_total_is_exact_sum_below_range (mem : Memory)
    (desc : RAYTRACING_ACCELERATION_STRUCTURE_DESC)
    (entries : List D3D12_RAYTRACING_GEOMETRY_DESC) (counts : List UINT)
    (h : Designates mem desc entries)
    (hc : entries.map GetTriangleCountFromGeometryDesc = counts.map Except.ok)
    (hs : (counts.map Fin.val).sum < UINT_RANGE) :
    ∃ r, GetTotalTriangleCount mem desc = Except.ok r ∧ r.val = (counts.map Fin.val).sum := by
  obtain ⟨r, hr, hval⟩ := accumulate_ok entries counts 0 hc
  refine ⟨r, ?_, ?_⟩
  · rw [GetTotalTriangleCount_eq_accumulate h]
    exact hr
  · rw [hval]
    simp only [Fin.val_zero, Nat.zero_add]
    exact Nat.mod_eq_of_lt hs

theorem C1_total_is_exact_sum_below_range_witness :
    ∃ r, GetTotalTriangleCount emptyMemory exampleInlineDesc = Except.ok r ∧
      r.val = (([3, 4] : List UINT).map Fin.val).sum :=
  C1_total_is_exact_sum_below_range emptyMemory exampleInlineDesc
    [exampleVertices9, exampleIndices12] [3, 4]
    (Or.inl ⟨rfl, by decide, rfl⟩) (by decide) (by decide)

/-- C1 as stated fails: four valid inline entries of `1431655765` triangles each
have the exact sum `5726623060`, and `GetTotalTriangleCount` returns
`1431655764`. -/
theorem C1_counterexample_sum_wraps :
    Designates emptyMemory exampleOverflowDesc
      [exampleVerticesMax, exampleVerticesMax, exampleVerticesMax, exampleVerticesMax] ∧
    [exampleVerticesMax, exampleVerticesMax, exampleVerticesMax, exampleVerticesMax].map
        GetTriangleCountFromGeometryDesc =
      ([1431655765, 1431655765, 1431655765, 1431655765] : List UINT).map Except.ok ∧
    (([1431655765, 1431655765, 1431655765, 1431655765] : List UINT).map Fin.val).sum =
      5726623060 ∧
    GetTotalTriangleCount emptyMemory exampleOverflowDesc = Except.ok 1431655764 ∧
    ¬ ∃ r, GetTotalTriangleCount emptyMemory exampleOverflowDesc = Except.ok r ∧
      r.val = (([1431655765, 1431655765, 1431655765, 1431655765] : List UINT).map Fin.val).sum := by
  have hd : Designates emptyMemory exampleOverflowDesc
      [exampleVerticesMax, exampleVerticesMax, exampleVerticesMax, exampleVerticesMax] :=
    Or.inl ⟨rfl, by decide, rfl⟩
  have ht : GetTotalTriangleCount emptyMemory exampleOverflowDesc = Except.ok 1431655764 := by
    rw [GetTotalTriangleCount_eq_accumulate hd]
    decide
  refine ⟨hd, by decide, by decide, ht, ?_⟩
  rintro ⟨r, hr, hval⟩
  rw [ht] at hr
  cases hr
  revert hval
  decide

/-- C2, as amended: `GetTriangleCountFromGeometryDesc` returns a count exactly when
the type of the entry is not `PROCEDURAL_PRIMITIVE_AABBS` and the entry either has
no index buffer and a `VertexCount` that is a multiple of 3, or has the index
format `R32_UINT` or `R16_UINT` and an `IndexCount` that is a multiple of 3. For
an entry whose type is one of the two enumerators that is: exactly when the entry
is of kind triangles and satisfies the same condition on its counts. -/
theorem C2_succeeds_iff_not_procedural_and_invariant (g : D3D12_RAYTRACING_GEOMETRY_DESC) :
    ((∃ r, GetTriangleCountFromGeometryDesc g = Except.ok r) ↔
      (g.GeometryType ≠ D3D12_RAYTRACING_GEOMETRY_TYPE_PROCEDURAL_PRIMITIVE_AABBS ∧
        ((g.Triangles.IndexFormat = DXGI_FORMAT_UNKNOWN ∧ g.Triangles.VertexCount.val % 3 = 0) ∨
         ((g.Triangles.IndexFormat = DXGI_FORMAT_R32_UINT ∨
             g.Triangles.IndexFormat = DXGI_FORMAT_R16_UINT) ∧
           g.Triangles.IndexCount.val % 3 = 0)))) ∧
    ((g.GeometryType = D3D12_RAYTRACING_GEOMETRY_TYPE_TRIANGLES ∨
        g.GeometryType = D3D12_RAYTRACING_GEOMETRY_TYPE_PROCEDURAL_PRIMITIVE_AABBS) →
      ((∃ r, GetTriangleCountFromGeometryDesc g = Except.ok r) ↔
        (g.GeometryType = D3D12_RAYTRACING_GEOMETRY_TYPE_TRIANGLES ∧
          ((g.Triangles.IndexFormat = DXGI_FORMAT_UNKNOWN ∧
              g.Triangles.VertexCount.val % 3 = 0) ∨
           ((g.Triangles.IndexFormat = DXGI_FORMAT_R32_UINT ∨
               g.Triangles.IndexFormat = DXGI_FORMAT_R16_UINT) ∧
             g.Triangles.IndexCount.val % 3 = 0))))) := by
  have hmain : (∃ r, GetTriangleCountFromGeometryDesc g = Except.ok r) ↔
      (g.GeometryType ≠ D3D12_RAYTRACING_GEOMETRY_TYPE_PROCEDURAL_PRIMITIVE_AABBS ∧
        ((g.Triangles.IndexFormat = DXGI_FORMAT_UNKNOWN ∧ g.Triangles.VertexCount.val % 3 = 0) ∨
         ((g.Triangles.IndexFormat = DXGI_FORMAT_R32_UINT ∨
             g.Triangles.IndexFormat = DXGI_FORMAT_R16_UINT) ∧
           g.Triangles.IndexCount.val % 3 = 0))) := by
    rw [GetTriangleCountFromGeometryDesc_eq]
    constructor
    · rintro ⟨r, hr⟩
      split_ifs at hr with h1 h2 h3
      refine ⟨h1, ?_⟩
      have hs : IsIndexBufferFormatSupported g.Triangles.IndexFormat = true := by
        simpa using h2
      have h3 : (primitiveVertexCount g).val % 3 = 0 := not_not.mp h3
      unfold primitiveVertexCount at h3
      rcases (IsIndexBufferFormatSupported_iff _).mp hs with hf | hf | hf
      · have hne : ¬ g.Triangles.IndexFormat = DXGI_FORMAT_UNKNOWN := by rw [hf]; decide
        rw [if_neg hne] at h3
        exact Or.inr ⟨Or.inl hf, h3⟩
      · have hne : ¬ g.Triangles.IndexFormat = DXGI_FORMAT_UNKNOWN := by rw [hf]; decide
        rw [if_neg hne] at h3
        exact Or.inr ⟨Or.inr hf, h3⟩
      · rw [if_pos hf] at h3
        exact Or.inl ⟨hf, h3⟩
    · rintro ⟨h1, hcase⟩
      have hs : ¬ IsIndexBufferFormatSupported g.Triangles.IndexFormat = false := by
        have : IsIndexBufferFormatSupported g.Triangles.IndexFormat = true := by
          rw [IsIndexBufferFormatSupported_iff]
          rcases hcase with ⟨hf, _⟩ | ⟨hf | hf, _⟩
          · exact Or.inr (Or.inr hf)
          · exact Or.inl hf
          · exact Or.inr (Or.inl hf)
        rw [this]; decide
      have h3 : ¬ (primitiveVertexCount g).val % 3 ≠ 0 := by
        unfold primitiveVertexCount
        rcases hcase with ⟨hf, hm⟩ | ⟨hf | hf, hm⟩
        · rw [if_pos hf]; exact not_not.mpr hm
        · have hne : ¬ g.Triangles.IndexFormat = DXGI_FORMAT_UNKNOWN := by rw [hf]; decide
          rw [if_neg hne]; exact not_not.mpr hm
        · have hne : ¬ g.Triangles.IndexFormat = DXGI_FORMAT_UNKNOWN := by rw [hf]; decide
          rw [if_neg hne]; exact not_not.mpr hm
      rw [if_neg h1, if_neg hs, if_neg h3]
      exact ⟨_, rfl⟩
  refine ⟨hmain, ?_⟩
  intro henum
  rw [hmain]
  constructor
  · rintro ⟨h1, hcase⟩
    rcases henum with ht | hp
    · exact ⟨ht, hcase⟩
    · exact absurd hp h1
  · rintro ⟨ht, hcase⟩
    refine ⟨?_, hcase⟩
    rw [ht]
    decide

/-- C2 as stated fails: an entry whose type is 2, neither enumerator, with no
index buffer and `VertexCount` 9 is not of kind triangles, and
`GetTriangleCountFromGeometryDesc` returns 3 for it. -/
theorem C2_counterexample_type_value_two :
    GetTriangleCountFromGeometryDesc exampleTypeValue2 = Except.ok 3 ∧
    exampleTypeValue2.GeometryType ≠ D3D12_RAYTRACING_GEOMETRY_TYPE_TRIANGLES ∧
    ¬ ((∃ r, GetTriangleCountFromGeometryDesc exampleTypeValue2 = Except.ok r) ↔
      (exampleTypeValue2.GeometryType = D3D12_RAYTRACING_GEOMETRY_TYPE_TRIANGLES ∧
        ((exampleTypeValue2.Triangles.IndexFormat = DXGI_FORMAT_UNKNOWN ∧
            exampleTypeValue2.Triangles.VertexCount.val % 3 = 0) ∨
         ((exampleTypeValue2.Triangles.IndexFormat = DXGI_FORMAT_R32_UINT ∨
             exampleTypeValue2.Triangles.IndexFormat = DXGI_FORMAT_R16_UINT) ∧
           exampleTypeValue2.Triangles.IndexCount.val % 3 = 0)))) := by
  have hok : GetTriangleCountFromGeometryDesc exampleTypeValue2 = Except.ok 3 := rfl
  have hne : exampleTypeValue2.GeometryType ≠ D3D12_RAYTRACING_GEOMETRY_TYPE_TRIANGLES := by
    decide
  refine ⟨hok, hne, ?_⟩
  intro hiff
  exact hne (hiff.mp ⟨3, hok⟩).1

/-- C3: when `GetTriangleCountFromGeometryDesc` returns `r`, three times `r` is
exactly the primitive vertex count (`VertexCount` without an index buffer,
`IndexCount` otherwise), as natural numbers: the division truncates nothing. -/
theorem C3_count_times_three (g : D3D12_RAYTRACING_GEOMETRY_DESC) (r : UINT)
    (h : GetTriangleCountFromGeometryDesc g = Except.ok r) :
    3 * r.val = (primitiveVertexCount g).val := by
  rw [GetTriangleCountFromGeometryDesc_eq] at h
  split_ifs at h with h1 h2 h3
  have h3 : (primitiveVertexCount g).val % 3 = 0 := not_not.mp h3
  have hr : r = primitiveVertexCount g / 3 := (Except.ok.inj h).symm
  have hdiv : (primitiveVertexCount g / 3).val = (primitiveVertexCount g).val / 3 := by
    rw [Fin.div_val]
    rfl
  rw [hr, hdiv]
  omega

theorem C3_count_times_three_witness :
    (GetTriangleCountFromGeometryDesc exampleVertices9 = Except.ok 3 ∧
      3 * (3 : UINT).val = (primitiveVertexCount exampleVertices9).val) ∧
    (GetTriangleCountFromGeometryDesc exampleIndices12 = Except.ok 4 ∧
      3 * (4 : UINT).val = (primitiveVertexCount exampleIndices12).val) :=
  ⟨⟨rfl, C3_count_times_three exampleVertices9 3 rfl⟩,
   ⟨rfl, C3_count_times_three exampleIndices12 4 rfl⟩⟩

/-- C4: on a build description with a recognised layout, `GetTotalTriangleCount`
fails exactly when some entry fails `GetTriangleCountFromGeometryDesc`, and it
fails with the error `e` exactly when the first failing entry fails with `e`:
the entries before it pass and the entries after it play no part. -/
theorem C4_fails_with_first_failing_entry (mem : Memory)
    (desc : RAYTRACING_ACCELERATION_STRUCTURE_DESC)
    (entries : List D3D12_RAYTRACING_GEOMETRY_DESC) (h : Designates mem desc entries) :
    ((∃ e, GetTotalTriangleCount mem desc = Except.error e) ↔
      ∃ g ∈ entries, ∃ e, GetTriangleCountFromGeometryDesc g = Except.error e) ∧
    ∀ e, GetTotalTriangleCount mem desc = Except.error e ↔
      ∃ pre g post, entries = pre ++ g :: post ∧
        (∀ p ∈ pre, ∃ c, GetTriangleCountFromGeometryDesc p = Except.ok c) ∧
        GetTriangleCountFromGeometryDesc g = Except.error e := by
  rw [GetTotalTriangleCount_eq_accumulate h]
  refine ⟨?_, fun e => accumulate_error_iff entries 0 e⟩
  constructor
  · rintro ⟨e, he⟩
    obtain ⟨pre, g, post, hl, _, hg⟩ := (accumulate_error_iff entries 0 e).mp he
    exact ⟨g, by rw [hl]; simp, e, hg⟩
  · rintro ⟨g, hg, e, he⟩
    cases hacc : accumulate entries 0 with
    | error e2 => exact ⟨e2, rfl⟩
    | ok r =>
      exfalso
      have hall : ∀ (l : List D3D12_RAYTRACING_GEOMETRY_DESC) (acc r : UINT),
          accumulate l acc = Except.ok r →
          ∀ x ∈ l, ∃ c, GetTriangleCountFromGeometryDesc x = Except.ok c := by
        intro l
        induction l with
        | nil => intro _ _ _ x hx; simp at hx
        | cons y ys ih =>
          intro acc r hr x hx
          cases hy : GetTriangleCountFromGeometryDesc y with
          | error e3 => simp [accumulate, hy] at hr
          | ok c =>
            simp only [accumulate, hy] at hr
            rcases List.mem_cons.mp hx with rfl | hx
            · exact ⟨c, hy⟩
            · exact ih _ _ hr x hx
      obtain ⟨c, hc⟩ := hall entries 0 r hacc g hg
      rw [hc] at he
      cases he

theorem C4_fails_with_first_failing_entry_witness :
    GetTotalTriangleCount emptyMemory exampleFailingDesc =
      Except.error (Failure.com_error E_INVALIDARG) :=
  ((C4_fails_with_first_failing_entry emptyMemory exampleFailingDesc
      [exampleVertices9, exampleVertices10, exampleProcedural, exampleIndices12]
      (Or.inl ⟨rfl, by decide, rfl⟩)).2 (Failure.com_error E_INVALIDARG)).mpr
    ⟨[exampleVertices9], exampleVertices10, [exampleProcedural, exampleIndices12], rfl,
      fun p hp => ⟨3, by rw [List.mem_singleton.mp hp]; rfl⟩, rfl⟩

/-- C5: a description with the inline layout and a description with the
pointer layout whose pointers reference the same entries in the same order have
the same outcome of `GetTotalTriangleCount`, total or error. -/
theorem C5_layout_equivalence (mem1 mem2 : Memory)
    (desc1 desc2 : RAYTRACING_ACCELERATION_STRUCTURE_DESC)
    (entries : List D3D12_RAYTRACING_GEOMETRY_DESC)
    (h1 : HoldsInline desc1 entries) (h2 : HoldsByPointers mem2 desc2 entries) :
    GetTotalTriangleCount mem1 desc1 = GetTotalTriangleCount mem2 desc2 := by
  rw [GetTotalTriangleCount_eq_accumulate (Or.inl h1 : Designates mem1 desc1 entries),
    GetTotalTriangleCount_eq_accumulate (Or.inr h2 : Designates mem2 desc2 entries)]

theorem C5_layout_equivalence_witness :
    GetTotalTriangleCount emptyMemory exampleInlineDesc =
      GetTotalTriangleCount exampleMemory examplePointerDesc ∧
    GetTotalTriangleCount exampleMemory examplePointerDesc = Except.ok 7 := by
  have hp : HoldsByPointers exampleMemory examplePointerDesc
      [exampleVertices9, exampleIndices12] := ⟨rfl, by decide, rfl⟩
  refine ⟨C5_layout_equivalence emptyMemory exampleMemory exampleInlineDesc examplePointerDesc
    [exampleVertices9, exampleIndices12] ⟨rfl, by decide, rfl⟩ hp, ?_⟩
  rw [GetTotalTriangleCount_eq_accumulate (Or.inr hp)]
  decide

/-- C6: an entry of type `PROCEDURAL_PRIMITIVE_AABBS` fails with `E_NOTIMPL`,
whatever its index format, index count and vertex count. -/
theorem C6_procedural_not_implemented (g : D3D12_RAYTRACING_GEOMETRY_DESC)
    (h : g.GeometryType = D3D12_RAYTRACING_GEOMETRY_TYPE_PROCEDURAL_PRIMITIVE_AABBS) :
    GetTriangleCountFromGeometryDesc g = Except.error (Failure.com_error E_NOTIMPL) := by
  rw [GetTriangleCountFromGeometryDesc_eq, if_pos h]

theorem C6_procedural_not_implemented_witness :
    GetTriangleCountFromGeometryDesc exampleProcedural =
      Except.error (Failure.com_error E_NOTIMPL) :=
  C6_procedural_not_implemented exampleProcedural rfl

/-- C7: a triangles entry whose index format is none of `R32_UINT`, `R16_UINT`
and `UNKNOWN` fails with `E_NOTIMPL` for all index and vertex counts, multiples
of 3 or not. -/
theorem C7_unsupported_index_format (g : D3D12_RAYTRACING_GEOMETRY_DESC)
    (ht : g.GeometryType = D3D12_RAYTRACING_GEOMETRY_TYPE_TRIANGLES)
    (h32 : g.Triangles.IndexFormat ≠ DXGI_FORMAT_R32_UINT)
    (h16 : g.Triangles.IndexFormat ≠ DXGI_FORMAT_R16_UINT)
    (hun : g.Triangles.IndexFormat ≠ DXGI_FORMAT_UNKNOWN) :
    GetTriangleCountFromGeometryDesc g = Except.error (Failure.com_error E_NOTIMPL) := by
  have h1 : ¬ g.GeometryType = D3D12_RAYTRACING_GEOMETRY_TYPE_PROCEDURAL_PRIMITIVE_AABBS := by
    rw [ht]; decide
  have hs : IsIndexBufferFormatSupported g.Triangles.IndexFormat = false := by
    cases hb : IsIndexBufferFormatSupported g.Triangles.IndexFormat with
    | false => rfl
    | true =>
      rcases (IsIndexBufferFormatSupported_iff _).mp hb with hf | hf | hf
      · exact absurd hf h32
      · exact absurd hf h16
      · exact absurd hf hun
  rw [GetTriangleCountFromGeometryDesc_eq, if_neg h1, if_pos hs]

theorem C7_unsupported_index_format_witness :
    GetTriangleCountFromGeometryDesc exampleIndexFormat8 =
      Except.error (Failure.com_error E_NOTIMPL) :=
  C7_unsupported_index_format exampleIndexFormat8 rfl (by decide) (by decide) (by decide)

/-- C8: a triangles entry with a supported index format whose primitive vertex
count is not a multiple of 3 fails with `E_INVALIDARG`. -/
theorem C8_count_not_multiple_of_three (g : D3D12_RAYTRACING_GEOMETRY_DESC)
    (ht : g.GeometryType = D3D12_RAYTRACING_GEOMETRY_TYPE_TRIANGLES)
    (hf : g.Triangles.IndexFormat = DXGI_FORMAT_R32_UINT ∨
      g.Triangles.IndexFormat = DXGI_FORMAT_R16_UINT ∨
      g.Triangles.IndexFormat = DXGI_FORMAT_UNKNOWN)
    (hm : (primitiveVertexCount g).val % 3 ≠ 0) :
    GetTriangleCountFromGeometryDesc g = Except.error (Failure.com_error E_INVALIDARG) := by
  have h1 : ¬ g.GeometryType = D3D12_RAYTRACING_GEOMETRY_TYPE_PROCEDURAL_PRIMITIVE_AABBS := by
    rw [ht]; decide
  have hs : ¬ IsIndexBufferFormatSupported g.Triangles.IndexFormat = false := by
    rw [(IsIndexBufferFormatSupported_iff _).mpr hf]; decide
  rw [GetTriangleCountFromGeometryDesc_eq, if_neg h1, if_neg hs, if_pos hm]

theorem C8_count_not_multiple_of_three_witness :
    GetTriangleCountFromGeometryDesc exampleVertices10 =
      Except.error (Failure.com_error E_INVALIDARG) :=
  C8_count_not_multiple_of_three exampleVertices10 rfl (Or.inr (Or.inr rfl)) (by decide)

/-- C9: with `NumDescs` equal to 0, `GetTotalTriangleCount` returns 0, whatever
the layout and the storage. -/
theorem C9_no_descs_gives_zero (mem : Memory) (desc : RAYTRACING_ACCELERATION_STRUCTURE_DESC)
    (h : desc.NumDescs = 0) : GetTotalTriangleCount mem desc = Except.ok 0 := by
  unfold GetTotalTriangleCount
  rw [GetTotalTriangleCount.loop, h, if_neg (by decide)]

theorem C9_no_descs_gives_zero_witness :
    GetTotalTriangleCount emptyMemory exampleEmptyInlineDesc = Except.ok 0 ∧
    GetTotalTriangleCount emptyMemory exampleEmptyPointerDesc = Except.ok 0 :=
  ⟨C9_no_descs_gives_zero emptyMemory exampleEmptyInlineDesc rfl,
   C9_no_descs_gives_zero emptyMemory exampleEmptyPointerDesc rfl⟩

/-- C10: when `DescsLayout` is neither `ARRAY` nor `ARRAY_OF_POINTERS`,
`GetGeometryDesc` fails with `E_INVALIDARG` at every index: it returns no entry
and the null reference after the throw is not reached. -/
theorem C10_unrecognised_layout_invalid_argument (mem : Memory)
    (desc : RAYTRACING_ACCELERATION_STRUCTURE_DESC) (geometryIndex : UINT)
    (h1 : desc.DescsLayout ≠ D3D12_ELEMENTS_LAYOUT_ARRAY)
    (h2 : desc.DescsLayout ≠ D3D12_ELEMENTS_LAYOUT_ARRAY_OF_POINTERS) :
    GetGeometryDesc mem desc geometryIndex = Except.error (Failure.com_error E_INVALIDARG) ∧
    (∀ g, GetGeometryDesc mem desc geometryIndex ≠ Except.ok g) ∧
    GetGeometryDesc mem desc geometryIndex ≠ Except.error Failure.invalidPointer := by
  have h : GetGeometryDesc mem desc geometryIndex =
      Except.error (Failure.com_error E_INVALIDARG) := by
    unfold GetGeometryDesc
    rw [if_neg h1, if_neg h2, ThrowFailure_E_INVALIDARG]
    rfl
  rw [h]
  refine ⟨rfl, ?_, ?_⟩
  · intro g hg; cases hg
  · intro hg; cases hg

theorem C10_unrecognised_layout_invalid_argument_witness :
    GetGeometryDesc exampleMemory exampleUnknownLayoutDesc 0 =
      Except.error (Failure.com_error E_INVALIDARG) :=
  (C10_unrecognised_layout_invalid_argument exampleMemory exampleUnknownLayoutDesc 0
    (by decide) (by decide)).1

/-- C11: `IsIndexBufferFormatSupported` returns true exactly for
`DXGI_FORMAT_R32_UINT`, `DXGI_FORMAT_R16_UINT` and `DXGI_FORMAT_UNKNOWN`. -/
theorem C11_index_format_supported_iff (format : DXGI_FORMAT) :
    IsIndexBufferFormatSupported format = true ↔
      (format = DXGI_FORMAT_R32_UINT ∨ format = DXGI_FORMAT_R16_UINT ∨
        format = DXGI_FORMAT_UNKNOWN) := by
  constructor
  · intro h
    by_contra hn
    simp only [not_or] at hn
    unfold IsIndexBufferFormatSupported at h
    rw [if_neg hn.1, if_neg hn.2.1, if_neg hn.2.2] at h
    cases h
  · intro h
    unfold IsIndexBufferFormatSupported
    rcases h with h | h | h
    · rw [if_pos h]
    · rw [h]; rfl
    · rw [h]; rfl

/-- C12: `IsVertexBufferFormatSupported` returns true exactly for
`DXGI_FORMAT_R32G32B32_FLOAT` and `DXGI_FORMAT_R32G32B32A32_FLOAT`, and it
returns false for `DXGI_FORMAT_UNKNOWN`. -/
theorem C12_vertex_format_supported_iff (format : DXGI_FORMAT) :
    (IsVertexBufferFormatSupported format = true ↔
      (format = DXGI_FORMAT_R32G32B32_FLOAT ∨ format = DXGI_FORMAT_R32G32B32A32_FLOAT)) ∧
    IsVertexBufferFormatSupported DXGI_FORMAT_UNKNOWN = false := by
  refine ⟨⟨?_, ?_⟩, rfl⟩
  · intro h
    by_contra hn
    simp only [not_or] at hn
    unfold IsVertexBufferFormatSupported at h
    rw [if_neg hn.1, if_neg hn.2] at h
    cases h
  · intro h
    unfold IsVertexBufferFormatSupported
    rcases h with h | h
    · rw [if_pos h]
    · rw [h]; rfl

/-- C16: the count that is not meaningful has no influence. Two triangles entries
with the same index format have the same outcome when the format is
`DXGI_FORMAT_UNKNOWN` and they agree on `VertexCount`, whatever their
`IndexCount`, and when the format is not `DXGI_FORMAT_UNKNOWN` and they agree on
`IndexCount`, whatever their `VertexCount`. -/
theorem C16_unused_count_has_no_influence (g1 g2 : D3D12_RAYTRACING_GEOMETRY_DESC)
    (ht1 : g1.GeometryType = D3D12_RAYTRACING_GEOMETRY_TYPE_TRIANGLES)
    (ht2 : g2.GeometryType = D3D12_RAYTRACING_GEOMETRY_TYPE_TRIANGLES)
    (hf : g1.Triangles.IndexFormat = g2.Triangles.IndexFormat)
    (hc : (g1.Triangles.IndexFormat = DXGI_FORMAT_UNKNOWN ∧
            g1.Triangles.VertexCount = g2.Triangles.VertexCount) ∨
          (g1.Triangles.IndexFormat ≠ DXGI_FORMAT_UNKNOWN ∧
            g1.Triangles.IndexCount = g2.Triangles.IndexCount)) :
    GetTriangleCountFromGeometryDesc g1 = GetTriangleCountFromGeometryDesc g2 := by
  have hp : primitiveVertexCount g1 = primitiveVertexCount g2 := by
    unfold primitiveVertexCount
    rcases hc with ⟨hu, hv⟩ | ⟨hu, hi⟩
    · rw [if_pos hu, if_pos (hf ▸ hu), hv]
    · rw [if_neg hu, if_neg (hf ▸ hu), hi]
  rw [GetTriangleCountFromGeometryDesc_eq g1, GetTriangleCountFromGeometryDesc_eq g2,
    ht1, ht2, hf, hp]

theorem C16_unused_count_has_no_influence_witness :
    GetTriangleCountFromGeometryDesc exampleVertices9 =
      GetTriangleCountFromGeometryDesc exampleVertices9Index5 ∧
    GetTriangleCountFromGeometryDesc exampleIndices12 =
      GetTriangleCountFromGeometryDesc exampleIndices12Vertex7 :=
  ⟨C16_unused_count_has_no_influence exampleVertices9 exampleVertices9Index5 rfl rfl rfl
      (Or.inl ⟨rfl, rfl⟩),
   C16_unused_count_has_no_influence exampleIndices12 exampleIndices12Vertex7 rfl rfl rfl
      (Or.inr ⟨by decide, rfl⟩)⟩

/-- C17: for a build description with a recognised layout whose entries all pass
validation, `GetTotalTriangleCount` returns a value, never an error, and the value
is the sum of the per-entry triangle counts reduced modulo `2^32`. -/
theorem C17_total_is_sum_modulo_range (mem : Memory)
    (desc : RAYTRACING_ACCELERATION_STRUCTURE_DESC)
    (entries : List D3D12_RAYTRACING_GEOMETRY_DESC) (counts : List UINT)
    (h : Designates mem desc entries)
    (hc : entries.map GetTriangleCountFromGeometryDesc = counts.map Except.ok) :
    ∃ r, GetTotalTriangleCount mem desc = Except.ok r ∧
      r.val = (counts.map Fin.val).sum % UINT_RANGE := by
  obtain ⟨r, hr, hval⟩ := accumulate_ok entries counts 0 hc
  refine ⟨r, ?_, ?_⟩
  · rw [GetTotalTriangleCount_eq_accumulate h]
    exact hr
  · rw [hval]
    simp only [Fin.val_zero, Nat.zero_add]

theorem C17_total_is_sum_modulo_range_witness :
    ∃ r, GetTotalTriangleCount emptyMemory exampleOverflowDesc = Except.ok r ∧
      r.val = (([1431655765, 1431655765, 1431655765, 1431655765] : List UINT).map
        Fin.val).sum % UINT_RANGE :=
  C17_total_is_sum_modulo_range emptyMemory exampleOverflowDesc
    [exampleVerticesMax, exampleVerticesMax, exampleVerticesMax, exampleVerticesMax]
    [1431655765, 1431655765, 1431655765, 1431655765]
    (Or.inl ⟨rfl, by decide, rfl⟩) (by decide)

/-- C19: `ThrowFailure(hr, errorString)` raises exactly when `hr` is negative; the
error it raises carries `hr`; the outcome is the same with any other error
string, present or absent; and for `hr` not negative it returns. -/
theorem C19_ThrowFailure_raises_iff_failed (hr : HRESULT) (errorString other : Option String) :
    ((∃ e, ThrowFailure hr errorString = Except.error e) ↔ hr < 0) ∧
    (∀ e, ThrowFailure hr errorString = Except.error e → e = Failure.com_error hr) ∧
    ThrowFailure hr errorString = ThrowFailure hr other ∧
    (¬ hr < 0 → ThrowFailure hr errorString = Except.ok ()) := by
  have hneg : hr < 0 → ∀ s : Option String,
      ThrowFailure hr s = Except.error (Failure.com_error hr) := by
    intro h s
    unfold ThrowFailure FAILED
    rw [decide_eq_true h]
    cases s <;> rfl
  have hpos : ¬ hr < 0 → ∀ s : Option String, ThrowFailure hr s = Except.ok () := by
    intro h s
    unfold ThrowFailure FAILED
    rw [decide_eq_false h]
    rfl
  by_cases h : hr < 0
  · rw [hneg h errorString, hneg h other]
    refine ⟨⟨fun _ => h, fun _ => ⟨_, rfl⟩⟩, ?_, rfl, fun hn => absurd h hn⟩
    intro e he
    exact (Except.error.inj he).symm
  · rw [hpos h errorString, hpos h other]
    refine ⟨⟨?_, fun hn => absurd hn h⟩, ?_, rfl, fun _ => rfl⟩
    · rintro ⟨e, he⟩
      cases he
    · intro e he
      cases he

/-- C15: `GetTotalTriangleCount` calls `GetGeometryDesc` with indices below
`NumDescs` only. The traced loop, which has the outcome of
`GetTotalTriangleCount`, records no other index; and when the active descriptor
sequence holds at least `NumDescs` elements, none of these lookups is out of
range and `GetTotalTriangleCount` does not end in the out-of-range failure. -/
theorem C15_lookups_in_bounds (mem : Memory) (desc : RAYTRACING_ACCELERATION_STRUCTURE_DESC)
    (h : ActiveSequenceHoldsNumDescs desc) :
    (GetTotalTriangleCount.tracedLoop mem desc 0 0).1 = GetTotalTriangleCount mem desc ∧
    (∀ i ∈ (GetTotalTriangleCount.tracedLoop mem desc 0 0).2,
      i < desc.NumDescs ∧ GetGeometryDesc mem desc i ≠ Except.error Failure.outOfRange) ∧
    GetTotalTriangleCount mem desc ≠ Except.error Failure.outOfRange := by
  obtain ⟨h1, h2⟩ := tracedLoop_spec mem desc _ 0 0 rfl
  refine ⟨h1, ?_, ?_⟩
  · intro i hi
    exact ⟨h2 i hi, GetGeometryDesc_ne_outOfRange mem desc h i (h2 i hi)⟩
  · intro hc
    rcases loop_error_source mem desc _ 0 0 _ rfl hc with ⟨j, hj, hg⟩ | ⟨g, hg⟩
    · exact GetGeometryDesc_ne_outOfRange mem desc h j hj hg
    · exact GetTriangleCountFromGeometryDesc_ne_outOfRange g hg

theorem C15_lookups_in_bounds_witness :
    (GetTotalTriangleCount.tracedLoop exampleMemory examplePointerDesc 0 0).1 =
      GetTotalTriangleCount exampleMemory examplePointerDesc ∧
    (∀ i ∈ (GetTotalTriangleCount.tracedLoop exampleMemory examplePointerDesc 0 0).2,
      i < examplePointerDesc.NumDescs ∧
        GetGeometryDesc exampleMemory examplePointerDesc i ≠
          Except.error Failure.outOfRange) ∧
    GetTotalTriangleCount exampleMemory examplePointerDesc ≠
      Except.error Failure.outOfRange :=
  C15_lookups_in_bounds exampleMemory examplePointerDesc
    ⟨fun hl => absurd hl (by decide), fun _ => by decide⟩

/-- C13, at the failing input: with the dividend 0 and the divisor 2 the ceiling
of the quotient is 0, and `DivideAndRoundUp` returns `2147483648` in `UINT`
arithmetic and 1 in `int` arithmetic. -/
theorem C13_DivideAndRoundUp_zero_dividend :
    DivideAndRoundUp typeUINT 0 2 = some 2147483648 ∧
    DivideAndRoundUp typeINT 0 2 = some 1 ∧
    ((0 : Int) ≤ 0 * 2 ∧ ∀ q : Int, (0 : Int) ≤ q * 2 → 0 ≤ q) := by
  refine ⟨by decide, by decide, by decide, ?_⟩
  intro q hq
  omega

/-- C14: `Log2(0)` is 0, and for a 64-bit value that is not zero `Log2` is the
base-2 logarithm rounded up, the least `n` with `value ≤ 2^n`: it is `k` when the
value is `2^k`, and otherwise the index of the highest set bit plus 1. -/
theorem C14_Log2_is_logarithm_rounded_up (v : UINT64) :
    (v = 0 → Log2 v = 0) ∧
    (v ≠ 0 →
      v.val ≤ 2 ^ Log2 v ∧ (∀ n, v.val ≤ 2 ^ n → Log2 v ≤ n) ∧
      (∀ k, v.val = 2 ^ k → Log2 v = k) ∧
      ((∀ k, v.val ≠ 2 ^ k) → Log2 v = Nat.log 2 v.val + 1)) := by
  constructor
  · intro h
    rw [h]
    decide
  · intro hv
    obtain ⟨h1, h2, _, h4⟩ := Log2_spec v hv
    refine ⟨h1, h2, ?_, h4⟩
    intro k hk
    apply Nat.le_antisymm
    · exact h2 k (by rw [hk])
    · rw [hk] at h1
      exact (Nat.pow_le_pow_iff_right (by decide)).mp h1

/-- C18, at the failing input: for the `UINT64` value `2^30 + 1` the smallest power
of two that is at least the value is `2^31`, a `UINT64` value below twice the
value. `Log2` returns 31, the shift `1 << 31` is a shift of an `int` and gives the
least `int`, and `AlignPowerOfTwo` returns its conversion `2^64 - 2^31`, which is
neither a power of two nor below twice the value. -/
theorem C18_AlignPowerOfTwo_int_shift_in_UINT64 :
    (typeUINT64.minValue ≤ 1073741825 ∧ (1073741825 : Int) ≤ typeUINT64.maxValue) ∧
    ((1073741825 : Int) ≤ 2 ^ 31 ∧ (∀ k : Nat, (1073741825 : Int) ≤ 2 ^ k → 31 ≤ k) ∧
      (2 : Int) ^ 31 ≤ typeUINT64.maxValue ∧ (2 : Int) ^ 31 < 2 * 1073741825) ∧
    Log2 (toUINT64 1073741825) = 31 ∧
    shiftLeftOne 31 = some (-2147483648) ∧
    AlignPowerOfTwo typeUINT64 1073741825 = some 18446744071562067968 ∧
    (18446744071562067968 : Int) ≠ 2 ^ 31 ∧
    ¬ (18446744071562067968 : Int) < 2 * 1073741825 ∧
    (∀ k : Nat, (18446744071562067968 : Int) ≠ 2 ^ k) := by
  refine ⟨⟨by decide, by decide⟩, ⟨by norm_num, ?_, by decide, by norm_num⟩, by decide,
    by decide, by decide, by norm_num, by norm_num, ?_⟩
  · intro k hk
    by_contra hc
    have hk30 : k ≤ 30 := by omega
    have := pow_le_pow_right₀ (by decide : (1 : Int) ≤ 2) hk30
    have h3 : (2 : Int) ^ 30 = 1073741824 := by norm_num
    omega
  · intro k hk
    by_cases h63 : k ≤ 63
    · have h1 : (2 : Int) ^ k ∣ 2 ^ 63 := pow_dvd_pow 2 h63
      rw [← hk] at h1
      have h2 : ¬ (18446744071562067968 : Int) ∣ 2 ^ 63 := by norm_num
      exact h2 h1
    · have h64 : 64 ≤ k := by omega
      have := pow_le_pow_right₀ (by decide : (1 : Int) ≤ 2) h64
      have h3 : (2 : Int) ^ 64 = 18446744073709551616 := by norm_num
      omega

end D3D12RaytracingFallback
